import Mathlib

/-!
# drm-display: a shallow embedding of `drm-display.c`

The records follow `drm-display.h`. Machine integers are natural numbers; where
the C arithmetic is done in `unsigned int` / `uint32_t` the wrap-around is written
out as `% UINT_MOD`. Pointers to ring buffers are `BufferPtr` values, a null
pointer is `none`. Every call that reaches the kernel is recorded in a list of
`KCall` events, and what the kernel answers is an explicit environment argument.

Conventions of the embedding:

* a function that receives a record through a pointer takes the record and gives
  back its content after the call; the display is passed even where the function
  only reads `display->drm_fd`;
* the values the kernel writes have the width of the ABI field that carries them
  (`handle` and `pitch` 32 bits, `size` 64 bits); `sizes[0]` keeps the low 32 bits
  of `size`;
* mapped addresses are natural numbers and `data[0] + offset` is their sum;
* `drmModeAtomicAddProperty` appends its entry to the request (the source does not
  look at its return value), `drmModeAtomicFree` leaves no trace;
* the two behaviours that C leaves undefined and that the source can reach, a
  remainder by zero and an access past a two-element array, are `Fault` values.
-/

namespace DrmDisplay

/-! ## Constants of the C environment -/

/-- Number of values of a 32-bit `unsigned int` / `uint32_t`. -/
def UINT_MOD : Nat := 4294967296

/-- Value of `EINVAL` in `errno.h`. -/
def EINVAL : Int := 22

/-- Value of `ENOMEM` in `errno.h`. -/
def ENOMEM : Int := 12

/-- Value of `MAP_FAILED`, that is `(void *) -1` on a 64-bit target. -/
def MAP_FAILED : Nat := 18446744073709551615

/-- Fourcc code of `DRM_FORMAT_XRGB8888` (`drm_fourcc.h`, 'X' 'R' '2' '4'). -/
def DRM_FORMAT_XRGB8888 : Nat := 0x34325258

/-- Fourcc code of `DRM_FORMAT_ARGB8888` (`drm_fourcc.h`, 'A' 'R' '2' '4'). -/
def DRM_FORMAT_ARGB8888 : Nat := 0x34325241

/-- Fourcc code of `DRM_FORMAT_NV12` (`drm_fourcc.h`, 'N' 'V' '1' '2'). -/
def DRM_FORMAT_NV12 : Nat := 0x3231564e

/-- Fourcc code of `DRM_FORMAT_YUV420` (`drm_fourcc.h`, 'Y' 'U' '1' '2'). -/
def DRM_FORMAT_YUV420 : Nat := 0x32315559

/-- Commit flag `DRM_MODE_ATOMIC_ALLOW_MODESET` (`drm_mode.h`). -/
def DRM_MODE_ATOMIC_ALLOW_MODESET : Nat := 0x0400

/-- Length of the two buffer arrays of `struct drm_display`, what `ARRAY_SIZE` yields. -/
def ARRAY_SIZE_buffers : Nat := 2

/-! ## Data model (`drm-display.h`) -/

/-- A C array of four words, as `uint32_t handles[4]` or `void *data[4]`. -/
structure Array4 where
  e0 : Nat
  e1 : Nat
  e2 : Nat
  e3 : Nat
deriving DecidableEq, Repr

/-- The all-zero array. -/
def Array4.zero : Array4 := ⟨0, 0, 0, 0⟩

/-- Record `struct drm_display_buffer`. -/
structure drm_display_buffer where
  width : Nat
  height : Nat
  format : Nat
  fb_id : Nat
  handles : Array4
  offsets : Array4
  strides : Array4
  sizes : Array4
  data : Array4
deriving DecidableEq, Repr

/-- The record after `memset(buffer, 0, sizeof(*buffer))`. -/
def drm_display_buffer.zero : drm_display_buffer :=
  ⟨0, 0, 0, 0, Array4.zero, Array4.zero, Array4.zero, Array4.zero, Array4.zero⟩

/-- A non-null `struct drm_display_buffer *`: the address of an element of one of the
two arrays of the display (`&display->primary_buffers[i]`), or some other address. -/
inductive BufferPtr where
  | primary (index : Nat)
  | overlay (index : Nat)
  | external (addr : Nat)
deriving DecidableEq, Repr

/-- Record `struct drm_display_connector_properties`. -/
structure drm_display_connector_properties where
  crtc_id : Nat
deriving DecidableEq, Repr

/-- Record `struct drm_display_crtc_properties`. -/
structure drm_display_crtc_properties where
  active : Nat
  mode_id : Nat
deriving DecidableEq, Repr

/-- Record `struct drm_display_plane_properties`. -/
structure drm_display_plane_properties where
  type : Nat
  fb_id : Nat
  crtc_id : Nat
  src_w : Nat
  src_h : Nat
  src_x : Nat
  src_y : Nat
  crtc_w : Nat
  crtc_h : Nat
  crtc_x : Nat
  crtc_y : Nat
deriving DecidableEq, Repr

/-- Record `struct drm_display_plane`. -/
structure drm_display_plane where
  id : Nat
  type : Nat
  properties : drm_display_plane_properties
deriving DecidableEq, Repr

/-- Record `struct drm_display_plane_setup`. -/
structure drm_display_plane_setup where
  plane : drm_display_plane
  buffer_visible : Option BufferPtr
  buffer_width : Nat
  buffer_height : Nat
  buffer_format : Nat
  display_width : Nat
  display_height : Nat
  display_x : Nat
  display_y : Nat
  configured : Bool
deriving DecidableEq, Repr

/-- The fields of libdrm's `drmModeModeInfo` that the source reads. -/
structure drmModeModeInfo where
  hdisplay : Nat
  vdisplay : Nat
  type : Nat
deriving DecidableEq, Repr

/-- Record `struct drm_display_output`. -/
structure drm_display_output where
  mode : drmModeModeInfo
  mode_blob_id : Nat
  mode_set : Bool
  connector_id : Nat
  connector_properties : drm_display_connector_properties
  crtc_id : Nat
  crtc_properties : drm_display_crtc_properties
deriving DecidableEq, Repr

/-- A C array `struct drm_display_buffer [2]`. -/
structure BufferArray where
  b0 : drm_display_buffer
  b1 : drm_display_buffer
deriving DecidableEq, Repr

/-- Read of element `i`; `none` past the end of the array. -/
def BufferArray.get? (a : BufferArray) (i : Nat) : Option drm_display_buffer :=
  match i with
  | 0 => some a.b0
  | 1 => some a.b1
  | _ => none

/-- Write of element `i`; `none` past the end of the array. -/
def BufferArray.set? (a : BufferArray) (i : Nat) (b : drm_display_buffer) :
    Option BufferArray :=
  match i with
  | 0 => some { a with b0 := b }
  | 1 => some { a with b1 := b }
  | _ => none

/-- Record `struct drm_display`. -/
structure drm_display where
  drm_path : Option String
  drm_fd : Int
  output : drm_display_output
  primary_setup : drm_display_plane_setup
  primary_buffers : BufferArray
  primary_buffers_count : Nat
  primary_buffers_index : Nat
  overlay_setup : drm_display_plane_setup
  overlay_buffers : BufferArray
  overlay_buffers_count : Nat
  overlay_buffers_index : Nat
  up : Bool
  private_data : Nat
deriving DecidableEq, Repr

/-- Undefined behaviour that the embedding makes explicit. -/
inductive Fault where
  | division_by_zero
  | out_of_bounds
deriving DecidableEq, Repr

/-! ## Buffer cycling -/

/-- What a cycle call leaves: the returned pointer (`none` is `NULL`) and the
display record after the call (`none` when the display pointer was null). -/
structure CycleResult where
  buffer : Option BufferPtr
  display : Option drm_display
deriving DecidableEq, Repr

/-- Function `drm_display_primary_buffer_cycle`. The statement `index %= count`
divides by `count`; with `count = 0` that is a division by zero. -/
def drm_display_primary_buffer_cycle (display : Option drm_display) :
    Except Fault CycleResult :=
  match display with
  | none => .ok { buffer := none, display := none }
  | some d =>
    let count := d.primary_buffers_count
    let index := d.primary_buffers_index
    let buffer := BufferPtr.primary index
    let index := (index + 1) % UINT_MOD
    if count = 0 then .error Fault.division_by_zero
    else
      let index := index % count
      .ok { buffer := some buffer,
            display := some { d with primary_buffers_index := index } }

/-- Function `drm_display_overlay_buffer_cycle`. -/
def drm_display_overlay_buffer_cycle (display : Option drm_display) :
    Except Fault CycleResult :=
  match display with
  | none => .ok { buffer := none, display := none }
  | some d =>
    let count := d.overlay_buffers_count
    let index := d.overlay_buffers_index
    let buffer := BufferPtr.overlay index
    let index := (index + 1) % UINT_MOD
    if count = 0 then .error Fault.division_by_zero
    else
      let index := index % count
      .ok { buffer := some buffer,
            display := some { d with overlay_buffers_index := index } }

/-- Calls `cycle` `n` times in a row on the same display, as `test_color` does, and
collects the returned pointers in call order. -/
def cycle_times (cycle : Option drm_display → Except Fault CycleResult) :
    Nat → Option drm_display → Except Fault (List (Option BufferPtr) × Option drm_display)
  | 0, display => .ok ([], display)
  | n + 1, display =>
    match cycle display with
    | .error f => .error f
    | .ok r =>
      match cycle_times cycle n r.display with
      | .error f => .error f
      | .ok (bufs, display') => .ok (r.buffer :: bufs, display')

/-! ## Kernel interface -/

/-- One `(object, property, value)` entry of an atomic request, as added by
`drmModeAtomicAddProperty`. -/
structure AtomicProperty where
  object_id : Nat
  property_id : Nat
  value : Nat
deriving DecidableEq, Repr

/-- The calls that reach the kernel, all on `display->drm_fd`. -/
inductive KCall where
  | create_dumb (width height bpp : Nat)
  | map_dumb (handle : Nat)
  | mmap (length offset : Nat)
  | add_fb2 (width height format : Nat) (handles strides offsets : Array4)
  | destroy_dumb (handle : Nat)
  | munmap (addr length : Nat)
  | rm_fb (fb_id : Nat)
  | create_property_blob (mode : drmModeModeInfo)
  | destroy_property_blob (blob_id : Nat)
  | atomic_commit (flags : Nat) (request : List AtomicProperty)
deriving DecidableEq, Repr

/-- Answer of the kernel to `DRM_IOCTL_MODE_CREATE_DUMB`. -/
inductive CreateDumbReply where
  | fail (errno : Nat)
  | ok (handle pitch size : Nat)
deriving DecidableEq, Repr

/-- What the kernel answers during one `drm_display_buffer_setup`:
`map_dumb` is the fake offset (`none` on failure), `mmap` the address returned by
`mmap` (`MAP_FAILED` on failure), `add_fb2` the framebuffer id (`none` on failure). -/
structure BufferEnv where
  create_dumb : CreateDumbReply
  map_dumb : Option Nat
  mmap : Nat
  add_fb2 : Option Nat
deriving DecidableEq, Repr

/-- What libdrm and the kernel answer during one commit operation:
`atomic_alloc` tells whether `drmModeAtomicAlloc` returned a request,
`create_blob` is the blob id written by `drmModeCreatePropertyBlob` (`none` when
it fails and writes nothing), `atomic_commit` is `none` when the kernel accepts the
commit and `some e` when it rejects it with `errno = e`. -/
structure CommitEnv where
  atomic_alloc : Bool
  create_blob : Option Nat
  atomic_commit : Option Nat
deriving DecidableEq, Repr

/-! ## Buffer setup and teardown -/

/-- Outcome of a buffer operation: return value, the buffer record after the call
(`none` when the pointer was null) and the kernel calls issued, in order. -/
structure BufferResult where
  ret : Int
  buffer : Option drm_display_buffer
  calls : List KCall
deriving DecidableEq, Repr

/-- First `switch` of `drm_display_buffer_setup`: the `(width, height, bpp)` of the
dumb buffer to request, `none` in the `default` case. -/
def create_dumb_request (buffer : drm_display_buffer) : Option (Nat × Nat × Nat) :=
  if buffer.format = DRM_FORMAT_XRGB8888 ∨ buffer.format = DRM_FORMAT_ARGB8888 then
    some (buffer.width, buffer.height, 32)
  else if buffer.format = DRM_FORMAT_NV12 ∨ buffer.format = DRM_FORMAT_YUV420 then
    some (buffer.width, ((buffer.height * 3 + 7) % UINT_MOD) / 8, 32)
  else
    none

/-- Second `switch` of `drm_display_buffer_setup`: the chroma planes. -/
def buffer_planes (b : drm_display_buffer) : drm_display_buffer :=
  if b.format = DRM_FORMAT_NV12 then
    let b := { b with strides := { b.strides with e0 := b.strides.e0 / 4 } }
    let b := { b with handles := { b.handles with e1 := b.handles.e0 } }
    let b := { b with offsets := { b.offsets with e1 := (b.width * b.height) % UINT_MOD } }
    let b := { b with data := { b.data with e1 := b.data.e0 + b.offsets.e1 } }
    { b with strides := { b.strides with e1 := b.strides.e0 } }
  else if b.format = DRM_FORMAT_YUV420 then
    let b := { b with strides := { b.strides with e0 := b.strides.e0 / 4 } }
    let b := { b with handles := { b.handles with e1 := b.handles.e0 } }
    let b := { b with handles := { b.handles with e2 := b.handles.e0 } }
    let b := { b with offsets := { b.offsets with e1 := (b.width * b.height) % UINT_MOD } }
    let b := { b with offsets :=
      { b.offsets with e2 := (b.offsets.e1 + b.offsets.e1 / 4) % UINT_MOD } }
    let b := { b with data := { b.data with e1 := b.data.e0 + b.offsets.e1 } }
    let b := { b with data := { b.data with e2 := b.data.e1 + b.offsets.e2 } }
    let b := { b with strides := { b.strides with e1 := b.strides.e0 } }
    { b with strides := { b.strides with e2 := b.strides.e1 } }
  else
    b

/-- The `error:` label of `drm_display_buffer_setup`; `create_handle` is
`create_dumb.handle`. -/
def buffer_setup_error (create_handle : Nat) (b : drm_display_buffer)
    (calls : List KCall) : BufferResult :=
  let calls :=
    if create_handle ≠ 0 then calls ++ [KCall.destroy_dumb b.handles.e0] else calls
  let calls :=
    if b.data.e0 ≠ 0 ∧ b.data.e0 ≠ MAP_FAILED then
      calls ++ [KCall.munmap b.data.e0 b.sizes.e0]
    else calls
  { ret := -1, buffer := some drm_display_buffer.zero, calls := calls }

/-- Function `drm_display_buffer_setup`. The display is only read (its `drm_fd`). -/
def drm_display_buffer_setup (env : BufferEnv) (display : Option drm_display)
    (buffer : Option drm_display_buffer)
    (plane_setup : Option drm_display_plane_setup) : BufferResult :=
  match display, buffer, plane_setup with
  | some _, some b, some ps =>
    let b := { b with width := ps.buffer_width, height := ps.buffer_height,
                      format := ps.buffer_format }
    match create_dumb_request b with
    | none => { ret := -EINVAL, buffer := some b, calls := [] }
    | some (cw, ch, bpp) =>
      let calls := [KCall.create_dumb cw ch bpp]
      match env.create_dumb with
      | CreateDumbReply.fail errno => { ret := -(errno : Int), buffer := some b, calls := calls }
      | CreateDumbReply.ok handle pitch size =>
        let b := { b with handles := { b.handles with e0 := handle },
                          strides := { b.strides with e0 := pitch },
                          sizes := { b.sizes with e0 := size % UINT_MOD } }
        let calls := calls ++ [KCall.map_dumb b.handles.e0]
        match env.map_dumb with
        | none => buffer_setup_error handle b calls
        | some offset =>
          let calls := calls ++ [KCall.mmap b.sizes.e0 offset]
          let b := { b with data := { b.data with e0 := env.mmap } }
          if b.data.e0 = MAP_FAILED then buffer_setup_error handle b calls
          else
            let b := buffer_planes b
            let calls := calls ++
              [KCall.add_fb2 b.width b.height b.format b.handles b.strides b.offsets]
            match env.add_fb2 with
            | none => buffer_setup_error handle b calls
            | some fb_id => { ret := 0, buffer := some { b with fb_id := fb_id }, calls := calls }
  | _, _, _ => { ret := -EINVAL, buffer := buffer, calls := [] }

/-- Function `drm_display_buffer_teardown`. -/
def drm_display_buffer_teardown (display : Option drm_display)
    (buffer : Option drm_display_buffer) : BufferResult :=
  match display, buffer with
  | some _, some b =>
    let calls := [KCall.rm_fb b.fb_id]
    let calls :=
      if b.data.e0 ≠ 0 then calls ++ [KCall.munmap b.data.e0 b.sizes.e0] else calls
    let calls := calls ++ [KCall.destroy_dumb b.handles.e0]
    { ret := 0, buffer := some drm_display_buffer.zero, calls := calls }
  | _, _ => { ret := -EINVAL, buffer := buffer, calls := [] }

/-! ## Atomic commit engine

The three operations receive the display, the plane setup and the buffer through
pointers. They are embedded on the three pointees: the result gives the content of
each pointee after the call. The operations write to `display->output` and to the
plane setup only, and read the plane setup through its own pointer only, so this
also describes a call in which `plane_setup` is `&display->primary_setup`: the
setup inside the display is then the `plane_setup` of the result. -/

/-- A non-null buffer argument: the pointer and the record it points to. -/
structure BufferArg where
  ptr : BufferPtr
  record : drm_display_buffer
deriving DecidableEq, Repr

/-- Outcome of a commit operation. -/
structure CommitResult where
  ret : Int
  display : Option drm_display
  plane_setup : Option drm_display_plane_setup
  buffer : Option drm_display_buffer
  calls : List KCall
deriving DecidableEq, Repr

/-- Function `drm_display_detach`. -/
def drm_display_detach (env : CommitEnv) (display : Option drm_display)
    (plane_setup : Option drm_display_plane_setup) : CommitResult :=
  match display, plane_setup with
  | some d, some ps =>
    if !ps.configured then
      { ret := -1, display := some d, plane_setup := some ps, buffer := none, calls := [] }
    else
      let plane_properties := ps.plane.properties
      let plane_id := ps.plane.id
      if !env.atomic_alloc then
        { ret := -ENOMEM, display := some d, plane_setup := some ps, buffer := none,
          calls := [] }
      else
        let request : List AtomicProperty :=
          [⟨plane_id, plane_properties.fb_id, 0⟩, ⟨plane_id, plane_properties.crtc_id, 0⟩]
        let calls := [KCall.atomic_commit 0 request]
        match env.atomic_commit with
        | some errno =>
          { ret := -(errno : Int), display := some d, plane_setup := some ps,
            buffer := none, calls := calls }
        | none =>
          let ps := { ps with buffer_visible := none }
          let ps := { ps with configured := false }
          { ret := 0, display := some d, plane_setup := some ps, buffer := none,
            calls := calls }
  | _, _ =>
    { ret := -EINVAL, display := display, plane_setup := plane_setup, buffer := none,
      calls := [] }

/-- Function `drm_display_page_flip`. -/
def drm_display_page_flip (env : CommitEnv) (display : Option drm_display)
    (plane_setup : Option drm_display_plane_setup) (buffer : Option BufferArg) :
    CommitResult :=
  match display, buffer, plane_setup with
  | some d, some b, some ps =>
    if !ps.configured then
      { ret := -1, display := some d, plane_setup := some ps, buffer := some b.record,
        calls := [] }
    else
      let plane_properties := ps.plane.properties
      let plane_id := ps.plane.id
      if !env.atomic_alloc then
        { ret := -ENOMEM, display := some d, plane_setup := some ps,
          buffer := some b.record, calls := [] }
      else
        let request : List AtomicProperty :=
          [⟨plane_id, plane_properties.fb_id, b.record.fb_id⟩,
           ⟨plane_id, plane_properties.crtc_id, d.output.crtc_id⟩]
        let calls := [KCall.atomic_commit 0 request]
        match env.atomic_commit with
        | some errno =>
          { ret := -(errno : Int), display := some d, plane_setup := some ps,
            buffer := some b.record, calls := calls }
        | none =>
          let ps := { ps with buffer_visible := some b.ptr }
          { ret := 0, display := some d, plane_setup := some ps, buffer := some b.record,
            calls := calls }
  | _, _, _ =>
    { ret := -EINVAL, display := display, plane_setup := plane_setup,
      buffer := buffer.map BufferArg.record, calls := [] }

/-- The three properties that `drm_display_configure` adds when no mode is set yet:
connector `CRTC_ID`, CRTC `ACTIVE` and CRTC `MODE_ID`. -/
def modeset_clause (output : drm_display_output) : List AtomicProperty :=
  [⟨output.connector_id, output.connector_properties.crtc_id, output.crtc_id⟩,
   ⟨output.crtc_id, output.crtc_properties.active, 1⟩,
   ⟨output.crtc_id, output.crtc_properties.mode_id, output.mode_blob_id⟩]

/-- The ten plane properties that `drm_display_configure` always adds. The shifts
are done on `unsigned int`, hence the reduction modulo `UINT_MOD`. -/
def plane_clause (output : drm_display_output) (ps : drm_display_plane_setup)
    (b : drm_display_buffer) : List AtomicProperty :=
  let plane_properties := ps.plane.properties
  let plane_id := ps.plane.id
  [⟨plane_id, plane_properties.fb_id, b.fb_id⟩,
   ⟨plane_id, plane_properties.crtc_id, output.crtc_id⟩,
   ⟨plane_id, plane_properties.src_w, (ps.buffer_width <<< 16) % UINT_MOD⟩,
   ⟨plane_id, plane_properties.src_h, (ps.buffer_height <<< 16) % UINT_MOD⟩,
   ⟨plane_id, plane_properties.src_x, 0⟩,
   ⟨plane_id, plane_properties.src_y, 0⟩,
   ⟨plane_id, plane_properties.crtc_w, ps.display_width⟩,
   ⟨plane_id, plane_properties.crtc_h, ps.display_height⟩,
   ⟨plane_id, plane_properties.crtc_x, ps.display_x⟩,
   ⟨plane_id, plane_properties.crtc_y, ps.display_y⟩]

/-- Function `drm_display_configure`. -/
def drm_display_configure (env : CommitEnv) (display : Option drm_display)
    (plane_setup : Option drm_display_plane_setup) (buffer : Option BufferArg) :
    CommitResult :=
  match display, buffer, plane_setup with
  | some d, some b, some ps =>
    if !env.atomic_alloc then
      { ret := -ENOMEM, display := some d, plane_setup := some ps, buffer := some b.record,
        calls := [] }
    else
      let modeset := !d.output.mode_set
      -- drmModeCreatePropertyBlob writes the new id on success only
      let d :=
        if modeset then
          match env.create_blob with
          | some blob_id => { d with output := { d.output with mode_blob_id := blob_id } }
          | none => d
        else d
      let calls := if modeset then [KCall.create_property_blob d.output.mode] else []
      let request := if modeset then modeset_clause d.output else []
      let flags := if modeset then 0 ||| DRM_MODE_ATOMIC_ALLOW_MODESET else 0
      let request := request ++ plane_clause d.output ps b.record
      let calls := calls ++ [KCall.atomic_commit flags request]
      match env.atomic_commit with
      | some errno =>
        { ret := -(errno : Int), display := some d, plane_setup := some ps,
          buffer := some b.record, calls := calls }
      | none =>
        let ps := { ps with buffer_visible := some b.ptr }
        let ps := { ps with configured := true }
        let d :=
          if !d.output.mode_set then { d with output := { d.output with mode_set := true } }
          else d
        { ret := 0, display := some d, plane_setup := some ps, buffer := some b.record,
          calls := calls }
  | _, _, _ =>
    { ret := -EINVAL, display := display, plane_setup := plane_setup,
      buffer := buffer.map BufferArg.record, calls := [] }

/-! ## Display session -/

/-- What the kernel answers during `drm_display_setup`: one `BufferEnv` for each
buffer of the primary array and of the overlay array. -/
structure SetupEnv where
  primary : Nat → BufferEnv
  overlay : Nat → BufferEnv

/-- What libdrm and the kernel answer to the two detach calls of
`drm_display_teardown`. -/
structure TeardownEnv where
  primary_detach : CommitEnv
  overlay_detach : CommitEnv
deriving DecidableEq, Repr

/-- Outcome of `drm_display_setup` and `drm_display_teardown`. -/
structure SessionResult where
  ret : Int
  display : Option drm_display
  calls : List KCall
deriving DecidableEq, Repr

/-- The loop `for (i = ...; i < count; i++)` of `drm_display_setup` over one buffer
array, started at index `i` with `remaining = count - i` iterations left. It stops
at the first buffer whose setup fails and gives the return value of the last
`drm_display_buffer_setup`. An index past the array is a fault. -/
def buffers_setup (env : Nat → BufferEnv) (display : drm_display)
    (plane_setup : drm_display_plane_setup) (buffers : BufferArray) :
    (remaining : Nat) → (i : Nat) → Except Fault (Int × BufferArray × List KCall)
  | 0, _ => .ok (0, buffers, [])
  | n + 1, i =>
    match buffers.get? i with
    | none => .error Fault.out_of_bounds
    | some b =>
      let r := drm_display_buffer_setup (env i) (some display) (some b) (some plane_setup)
      match buffers.set? i (r.buffer.getD b) with
      | none => .error Fault.out_of_bounds
      | some buffers =>
        if r.ret ≠ 0 then .ok (r.ret, buffers, r.calls)
        else
          match buffers_setup env display plane_setup buffers n (i + 1) with
          | .error f => .error f
          | .ok (ret, buffers, calls) => .ok (ret, buffers, r.calls ++ calls)

/-- The loop `for (i = ...; i < count; i++)` of `drm_display_teardown` over one
buffer array, started at index `i` with `remaining = count - i` iterations left.
An index past the array is a fault. -/
def buffers_teardown (display : drm_display) (buffers : BufferArray) :
    (remaining : Nat) → (i : Nat) → Except Fault (BufferArray × List KCall)
  | 0, _ => .ok (buffers, [])
  | n + 1, i =>
    match buffers.get? i with
    | none => .error Fault.out_of_bounds
    | some b =>
      let r := drm_display_buffer_teardown (some display) (some b)
      match buffers.set? i (r.buffer.getD b) with
      | none => .error Fault.out_of_bounds
      | some buffers =>
        match buffers_teardown display buffers n (i + 1) with
        | .error f => .error f
        | .ok (buffers, calls) => .ok (buffers, r.calls ++ calls)

/-- The defaulting of the display geometry in `drm_display_setup`. -/
def default_display_size (ps : drm_display_plane_setup) : drm_display_plane_setup :=
  if ps.display_width = 0 ∨ ps.display_height = 0 then
    { ps with display_width := ps.buffer_width, display_height := ps.buffer_height }
  else ps

/-- Function `drm_display_setup`. -/
def drm_display_setup (env : SetupEnv) (display : Option drm_display) :
    Except Fault SessionResult :=
  match display with
  | none => .ok { ret := -EINVAL, display := none, calls := [] }
  | some d =>
    if d.up then .ok { ret := -EINVAL, display := some d, calls := [] }
    else
      let d := { d with primary_buffers_count := ARRAY_SIZE_buffers }
      let d := { d with primary_buffers_index := 0 }
      match buffers_setup env.primary d d.primary_setup d.primary_buffers
          d.primary_buffers_count 0 with
      | .error f => .error f
      | .ok (ret, buffers, calls) =>
        let d := { d with primary_buffers := buffers }
        if ret ≠ 0 then .ok { ret := -1, display := some d, calls := calls }
        else
          let d := { d with primary_setup := default_display_size d.primary_setup }
          if d.overlay_setup.buffer_format = 0 then
            .ok { ret := 0, display := some { d with up := true }, calls := calls }
          else
            let d := { d with overlay_buffers_count := ARRAY_SIZE_buffers }
            let d := { d with overlay_buffers_index := 0 }
            match buffers_setup env.overlay d d.overlay_setup d.overlay_buffers
                d.overlay_buffers_count 0 with
            | .error f => .error f
            | .ok (ret, buffers, calls2) =>
              let d := { d with overlay_buffers := buffers }
              let calls := calls ++ calls2
              if ret ≠ 0 then .ok { ret := -1, display := some d, calls := calls }
              else
                let d := { d with overlay_setup := default_display_size d.overlay_setup }
                .ok { ret := 0, display := some { d with up := true }, calls := calls }

/-- Function `drm_display_teardown`. The return values of `drm_display_detach` and
of `drm_display_buffer_teardown` are not looked at, as in the source. -/
def drm_display_teardown (env : TeardownEnv) (display : Option drm_display) :
    Except Fault SessionResult :=
  match display with
  | none => .ok { ret := -EINVAL, display := none, calls := [] }
  | some d =>
    if !d.up then .ok { ret := -EINVAL, display := some d, calls := [] }
    else
      let r1 :=
        if d.primary_setup.configured then
          drm_display_detach env.primary_detach (some d) (some d.primary_setup)
        else
          { ret := 0, display := some d, plane_setup := some d.primary_setup,
            buffer := none, calls := [] }
      let d := { d with primary_setup := r1.plane_setup.getD d.primary_setup }
      match buffers_teardown d d.primary_buffers d.primary_buffers_count 0 with
      | .error f => .error f
      | .ok (buffers, calls1) =>
        let d := { d with primary_buffers := buffers }
        let r2 :=
          if d.overlay_setup.configured then
            drm_display_detach env.overlay_detach (some d) (some d.overlay_setup)
          else
            { ret := 0, display := some d, plane_setup := some d.overlay_setup,
              buffer := none, calls := [] }
        let d := { d with overlay_setup := r2.plane_setup.getD d.overlay_setup }
        match buffers_teardown d d.overlay_buffers d.overlay_buffers_count 0 with
        | .error f => .error f
        | .ok (buffers, calls2) =>
          let d := { d with overlay_buffers := buffers }
          let calls := r1.calls ++ calls1 ++ r2.calls ++ calls2
          let calls :=
            if d.output.mode_blob_id ≠ 0 then
              calls ++ [KCall.destroy_property_blob d.output.mode_blob_id]
            else calls
          let d :=
            if d.output.mode_blob_id ≠ 0 then
              { d with output := { d.output with mode_blob_id := 0 } }
            else d
          .ok { ret := 0, display := some { d with up := false }, calls := calls }

/-! ## Topology probe

The kernel objects are the libdrm records, reduced to the fields the source reads.
The kernel is taken to give the same answer each time the same object is asked
for, so its answers are functions of the object id. -/

/-- Value of `ENODEV` in `errno.h`. -/
def ENODEV : Int := 19

/-- Connection state `DRM_MODE_CONNECTED` (`xf86drmMode.h`). -/
def DRM_MODE_CONNECTED : Nat := 1

/-- Mode type flag `DRM_MODE_TYPE_PREFERRED` (`drm_mode.h`). -/
def DRM_MODE_TYPE_PREFERRED : Nat := 8

/-- Plane type `DRM_PLANE_TYPE_OVERLAY` (`xf86drmMode.h`). -/
def DRM_PLANE_TYPE_OVERLAY : Nat := 0

/-- Plane type `DRM_PLANE_TYPE_PRIMARY` (`xf86drmMode.h`). -/
def DRM_PLANE_TYPE_PRIMARY : Nat := 1

/-- Object type `DRM_MODE_OBJECT_CONNECTOR` (`drm_mode.h`). -/
def DRM_MODE_OBJECT_CONNECTOR : Nat := 0xc0c0c0c0

/-- Object type `DRM_MODE_OBJECT_CRTC` (`drm_mode.h`). -/
def DRM_MODE_OBJECT_CRTC : Nat := 0xcccccccc

/-- Object type `DRM_MODE_OBJECT_PLANE` (`drm_mode.h`). -/
def DRM_MODE_OBJECT_PLANE : Nat := 0xeeeeeeee

/-- The fields of `drmModeRes` that the source reads. -/
structure drmModeRes where
  connectors : List Nat
  crtcs : List Nat
deriving DecidableEq, Repr

/-- The fields of `drmModeConnector` that the source reads. -/
structure drmModeConnector where
  connector_id : Nat
  connection : Nat
  encoder_id : Nat
  encoders : List Nat
  modes : List drmModeModeInfo
deriving DecidableEq, Repr

/-- The fields of `drmModeEncoder` that the source reads. -/
structure drmModeEncoder where
  crtc_id : Nat
  possible_crtcs : Nat
deriving DecidableEq, Repr

/-- The fields of `drmModeCrtc` that the source reads. -/
structure drmModeCrtc where
  mode_valid : Nat
  mode : drmModeModeInfo
deriving DecidableEq, Repr

/-- The fields of `drmModePlane` that the source reads. -/
structure drmModePlane where
  possible_crtcs : Nat
  formats : List Nat
deriving DecidableEq, Repr

/-- The fields of `drmModePropertyRes` that the source reads. -/
structure drmModePropertyRes where
  name : String
  prop_id : Nat
deriving DecidableEq, Repr

/-- What the kernel answers during `drm_display_probe`. The two capability calls
give `none` on success and `some errno` on failure; a getter gives `none` where
libdrm returns `NULL`; `object_get_properties id type` gives the `errno` of a
failure or the pairs `(props[i], prop_values[i])`. -/
structure ProbeEnv where
  set_cap_atomic : Option Nat
  set_cap_universal_planes : Option Nat
  get_resources : Option drmModeRes
  get_connector : Nat → Option drmModeConnector
  get_encoder : Nat → Option drmModeEncoder
  get_crtc : Nat → Option drmModeCrtc
  get_plane_resources : Option (List Nat)
  get_plane : Nat → Option drmModePlane
  object_get_properties : Nat → Nat → Except Nat (List (Nat × Nat))
  get_property : Nat → Option drmModePropertyRes

/-- Record `struct drm_display_property` with its pointers followed: `id` is the
word that `id` points to, `value` the word that `value` points to, `none` when the
table entry gives no `value` pointer. -/
structure drm_display_property where
  name : String
  id : Nat
  value : Option Nat
deriving DecidableEq, Repr

/-- The inner loop of `display_properties_probe`: the first table entry whose name
is the name of the property takes its id and, if it has a value pointer, its value
(a 64-bit value stored into a `uint32_t`). -/
def property_assign (name : String) (prop_id prop_value : Nat) :
    List drm_display_property → List drm_display_property
  | [] => []
  | p :: ps =>
    if p.name = name then
      { p with id := prop_id, value := p.value.map (fun _ => prop_value % UINT_MOD) } :: ps
    else p :: property_assign name prop_id prop_value ps

/-- Function `display_properties_probe`: the return value and the table after the
call. -/
def display_properties_probe (env : ProbeEnv) (id type : Nat)
    (display_properties : List drm_display_property) :
    Int × List drm_display_property :=
  match env.object_get_properties id type with
  | .error errno => (-(errno : Int), display_properties)
  | .ok properties =>
    let table := properties.foldl (fun table pv =>
      match env.get_property pv.1 with
      | none => table
      | some property => property_assign property.name property.prop_id pv.2 table)
      display_properties
    if table.all (fun p => decide (p.id ≠ 0)) then (0, table) else (-1, table)

/-- Function `connector_properties_probe`. -/
def connector_properties_probe (env : ProbeEnv) (d : drm_display) : Int × drm_display :=
  let r := display_properties_probe env d.output.connector_id DRM_MODE_OBJECT_CONNECTOR
    [⟨"CRTC_ID", d.output.connector_properties.crtc_id, none⟩]
  match r.2 with
  | [crtc_id] =>
    (r.1, { d with output := { d.output with connector_properties := ⟨crtc_id.id⟩ } })
  | _ => (r.1, d)

/-- Function `crtc_properties_probe`. -/
def crtc_properties_probe (env : ProbeEnv) (d : drm_display) : Int × drm_display :=
  let r := display_properties_probe env d.output.crtc_id DRM_MODE_OBJECT_CRTC
    [⟨"ACTIVE", d.output.crtc_properties.active, none⟩,
     ⟨"MODE_ID", d.output.crtc_properties.mode_id, none⟩]
  match r.2 with
  | [active, mode_id] =>
    (r.1, { d with output := { d.output with crtc_properties := ⟨active.id, mode_id.id⟩ } })
  | _ => (r.1, d)

/-- Function `plane_properties_probe`: the return value and the plane record after
the call. -/
def plane_properties_probe (env : ProbeEnv) (plane : drm_display_plane) :
    Int × drm_display_plane :=
  let r := display_properties_probe env plane.id DRM_MODE_OBJECT_PLANE
    [⟨"type", plane.properties.type, some plane.type⟩,
     ⟨"FB_ID", plane.properties.fb_id, none⟩,
     ⟨"CRTC_ID", plane.properties.crtc_id, none⟩,
     ⟨"SRC_X", plane.properties.src_x, none⟩,
     ⟨"SRC_Y", plane.properties.src_y, none⟩,
     ⟨"SRC_W", plane.properties.src_w, none⟩,
     ⟨"SRC_H", plane.properties.src_h, none⟩,
     ⟨"CRTC_X", plane.properties.crtc_x, none⟩,
     ⟨"CRTC_Y", plane.properties.crtc_y, none⟩,
     ⟨"CRTC_W", plane.properties.crtc_w, none⟩,
     ⟨"CRTC_H", plane.properties.crtc_h, none⟩]
  match r.2 with
  | [type, fb_id, crtc_id, src_x, src_y, src_w, src_h, crtc_x, crtc_y, crtc_w, crtc_h] =>
    (r.1, { plane with
      type := type.value.getD plane.type,
      properties :=
        { type := type.id, fb_id := fb_id.id, crtc_id := crtc_id.id, src_w := src_w.id,
          src_h := src_h.id, src_x := src_x.id, src_y := src_y.id, crtc_w := crtc_w.id,
          crtc_h := crtc_h.id, crtc_x := crtc_x.id, crtc_y := crtc_y.id } })
  | _ => (r.1, plane)

/-- The first mode of the list whose type has the preferred flag, if any. -/
def preferred_mode (modes : List drmModeModeInfo) : Option drmModeModeInfo :=
  modes.find? (fun m => decide (m.type &&& DRM_MODE_TYPE_PREFERRED ≠ 0))

/-- The state of the connector loop of `drm_display_probe`. -/
structure ConnectorScan where
  found : Bool
  display : drm_display
  encoder_id : Nat
  mode_best : drmModeModeInfo
deriving DecidableEq, Repr

/-- One connector of the connector loop, up to the label `next_connector`. -/
def probe_connector (connector : drmModeConnector) (s : ConnectorScan) : ConnectorScan :=
  if connector.connection ≠ DRM_MODE_CONNECTED then s
  else
    let encoder_id : Option Nat :=
      if connector.encoder_id ≠ 0 then some connector.encoder_id
      else connector.encoders.head?
    match encoder_id with
    | none => s
    | some encoder_id =>
      { s with
        encoder_id := encoder_id,
        display := { s.display with
          output := { s.display.output with connector_id := connector.connector_id } },
        mode_best := (preferred_mode connector.modes).getD s.mode_best }

/-- The connector loop of `drm_display_probe`; `found` tells whether it left
through `break`. A connector that libdrm does not return is passed over by
`continue`. -/
def probe_connectors (env : ProbeEnv) : List Nat → ConnectorScan → ConnectorScan
  | [], s => { s with found := false }
  | id :: rest, s =>
    match env.get_connector id with
    | none => probe_connectors env rest s
    | some connector =>
      let s := probe_connector connector s
      if s.encoder_id ≠ 0 then { s with found := true }
      else probe_connectors env rest s

/-- The loop over the CRTCs that an encoder without CRTC can drive, from index `i`:
the first CRTC whose bit is set in `possible_crtcs`. -/
def first_possible_crtc (possible_crtcs : Nat) : List Nat → Nat → Option Nat
  | [], _ => none
  | crtc :: rest, i =>
    if possible_crtcs &&& ((1 <<< i) % UINT_MOD) ≠ 0 then some crtc
    else first_possible_crtc possible_crtcs rest (i + 1)

/-- The loop that finds the index of the CRTC id in the resources, from index `i`. -/
def crtc_index_of (crtc_id : Nat) : List Nat → Nat → Option Nat
  | [], _ => none
  | crtc :: rest, i =>
    if crtc = crtc_id then some i else crtc_index_of crtc_id rest (i + 1)

/-- The record `display_plane` of the plane loop after `plane_properties_probe`:
it starts all zero but for the plane id. -/
def probed_plane (env : ProbeEnv) (plane_id : Nat) : Int × drm_display_plane :=
  plane_properties_probe env ⟨plane_id, 0, ⟨0, 0, 0, 0, 0, 0, 0, 0, 0, 0, 0⟩⟩

/-- One plane of the plane loop of `drm_display_probe`, up to the label
`next_plane`. -/
def probe_plane (env : ProbeEnv) (crtc_index : Nat) (plane_id : Nat)
    (plane : drmModePlane) (d : drm_display) : drm_display :=
  if plane.possible_crtcs &&& ((1 <<< crtc_index) % UINT_MOD) = 0 then d
  else
    let r := probed_plane env plane_id
    let display_plane := r.2
    if r.1 ≠ 0 then d
    else if display_plane.type = DRM_PLANE_TYPE_PRIMARY then
      if d.primary_setup.plane.id ≠ 0 then d
      else if d.primary_setup.buffer_format ∈ plane.formats then
        { d with primary_setup := { d.primary_setup with plane := display_plane } }
      else d
    else if display_plane.type = DRM_PLANE_TYPE_OVERLAY then
      if d.overlay_setup.plane.id ≠ 0 then d
      else if d.overlay_setup.buffer_format ∈ plane.formats then
        { d with overlay_setup := { d.overlay_setup with plane := display_plane } }
      else d
    else d

/-- The plane loop of `drm_display_probe`: the flag tells whether it left through
`break`, which it does after the first plane at which a primary plane is kept. A
plane that libdrm does not return is passed over by `continue`. -/
def probe_planes (env : ProbeEnv) (crtc_index : Nat) :
    List Nat → drm_display → Bool × drm_display
  | [], d => (false, d)
  | plane_id :: rest, d =>
    match env.get_plane plane_id with
    | none => probe_planes env crtc_index rest d
    | some plane =>
      let d := probe_plane env crtc_index plane_id plane d
      if d.primary_setup.plane.id ≠ 0 then (true, d)
      else probe_planes env crtc_index rest d

/-- Outcome of `drm_display_probe`. -/
structure ProbeResult where
  ret : Int
  display : Option drm_display
deriving DecidableEq, Repr

/-- The defaulting of the primary buffer size at the end of `drm_display_probe`. -/
def default_buffer_size (d : drm_display) : drm_display :=
  if d.primary_setup.buffer_width = 0 ∨ d.primary_setup.buffer_height = 0 then
    { d with primary_setup := { d.primary_setup with
        buffer_width := d.output.mode.hdisplay,
        buffer_height := d.output.mode.vdisplay } }
  else d

/-- The part of `drm_display_probe` from the comment "Get plane resources." to the
end, for the CRTC index found before. -/
def probe_plane_resources (env : ProbeEnv) (crtc_index : Nat) (d : drm_display) :
    ProbeResult :=
  match env.get_plane_resources with
  | none => { ret := -1, display := some d }
  | some planes =>
    let r := probe_planes env crtc_index planes d
    if !r.1 then { ret := -1, display := some r.2 }
    else { ret := 0, display := some (default_buffer_size r.2) }

/-- The part of `drm_display_probe` from the comment "Find the CRTC index." on. -/
def probe_crtc (env : ProbeEnv) (resources : drmModeRes) (mode_best : drmModeModeInfo)
    (d : drm_display) : ProbeResult :=
  match crtc_index_of d.output.crtc_id resources.crtcs 0 with
  | none => { ret := -1, display := some d }
  | some crtc_index =>
    match env.get_crtc d.output.crtc_id with
    | none => { ret := -1, display := some d }
    | some crtc =>
      let d :=
        if crtc.mode_valid ≠ 0 then
          { d with output := { d.output with mode := crtc.mode, mode_set := true } }
        else
          { d with output := { d.output with mode := mode_best, mode_set := false } }
      let r := crtc_properties_probe env d
      if r.1 ≠ 0 then { ret := -1, display := some r.2 }
      else probe_plane_resources env crtc_index r.2

/-- The part of `drm_display_probe` from the comment "Find the attached CRTC ID."
on, for the encoder id and the best mode that the connector loop found. -/
def probe_encoder (env : ProbeEnv) (resources : drmModeRes) (encoder_id : Nat)
    (mode_best : drmModeModeInfo) (d : drm_display) : ProbeResult :=
  match env.get_encoder encoder_id with
  | none => { ret := -1, display := some d }
  | some encoder =>
    let d :=
      if encoder.crtc_id ≠ 0 then
        { d with output := { d.output with crtc_id := encoder.crtc_id } }
      else
        match first_possible_crtc encoder.possible_crtcs resources.crtcs 0 with
        | some crtc_id => { d with output := { d.output with crtc_id := crtc_id } }
        | none => d
    if d.output.crtc_id = 0 then { ret := -1, display := some d }
    else probe_crtc env resources mode_best d

/-- Function `drm_display_probe`, up to the comment "Find the attached CRTC ID.";
the rest is `probe_encoder`, `probe_crtc` and `probe_plane_resources`. -/
def drm_display_probe (env : ProbeEnv) (display : Option drm_display) : ProbeResult :=
  match display with
  | none => { ret := -EINVAL, display := none }
  | some d =>
    match env.set_cap_atomic with
    | some errno => { ret := -(errno : Int), display := some d }
    | none =>
    match env.set_cap_universal_planes with
    | some errno => { ret := -(errno : Int), display := some d }
    | none =>
    match env.get_resources with
    | none => { ret := -ENODEV, display := some d }
    | some resources =>
    let s := probe_connectors env resources.connectors
      { found := false, display := d, encoder_id := 0, mode_best := ⟨0, 0, 0⟩ }
    if !s.found then { ret := -1, display := some s.display }
    else
    let r := connector_properties_probe env s.display
    if r.1 ≠ 0 then { ret := -1, display := some r.2 }
    else probe_encoder env resources s.encoder_id s.mode_best r.2

/-- Whether a plane of the enumeration can serve in a role: libdrm returns it, it
is compatible with the CRTC index, all its required properties resolve, its type
is `type` and it lists `format`. -/
def plane_matches (env : ProbeEnv) (crtc_index type format plane_id : Nat) : Bool :=
  match env.get_plane plane_id with
  | none => false
  | some plane =>
    decide (plane.possible_crtcs &&& ((1 <<< crtc_index) % UINT_MOD) ≠ 0) &&
    decide ((probed_plane env plane_id).1 = 0) &&
    decide ((probed_plane env plane_id).2.type = type) &&
    decide (format ∈ plane.formats)

/-! ## Sample values used to evaluate the definitions -/

/-- A plane setup with every field zero. -/
def plane_setup_zero : drm_display_plane_setup :=
  { plane := ⟨0, 0, ⟨0, 0, 0, 0, 0, 0, 0, 0, 0, 0, 0⟩⟩, buffer_visible := none,
    buffer_width := 0, buffer_height := 0, buffer_format := 0, display_width := 0,
    display_height := 0, display_x := 0, display_y := 0, configured := false }

/-- The display of `main`: `struct drm_display display = { 0 }`. -/
def display_zero : drm_display :=
  { drm_path := none, drm_fd := 0,
    output := ⟨⟨0, 0, 0⟩, 0, false, 0, ⟨0⟩, 0, ⟨0, 0⟩⟩,
    primary_setup := plane_setup_zero,
    primary_buffers := ⟨drm_display_buffer.zero, drm_display_buffer.zero⟩,
    primary_buffers_count := 0, primary_buffers_index := 0,
    overlay_setup := plane_setup_zero,
    overlay_buffers := ⟨drm_display_buffer.zero, drm_display_buffer.zero⟩,
    overlay_buffers_count := 0, overlay_buffers_index := 0,
    up := false, private_data := 0 }

/-- A display whose two rings are as `drm_display_setup` leaves them when an overlay
format is requested: count 2 and index 0. -/
def display_rings : drm_display :=
  { display_zero with primary_buffers_count := 2, overlay_buffers_count := 2 }

/-- The configure, page flip and detach of one plane setup in a row, each on the
state the previous call left: the result of the configure with buffer `A`. -/
def seq_configure (e1 : CommitEnv) (d : drm_display) (ps : drm_display_plane_setup)
    (A : BufferArg) : CommitResult :=
  drm_display_configure e1 (some d) (some ps) (some A)

/-- The result of the page flip with buffer `B` that follows the configure. -/
def seq_page_flip (e1 e2 : CommitEnv) (d : drm_display) (ps : drm_display_plane_setup)
    (A B : BufferArg) : CommitResult :=
  drm_display_page_flip e2 (seq_configure e1 d ps A).display
    (seq_configure e1 d ps A).plane_setup (some B)

/-- The result of the detach that follows the page flip. -/
def seq_detach (e1 e2 e3 : CommitEnv) (d : drm_display) (ps : drm_display_plane_setup)
    (A B : BufferArg) : CommitResult :=
  drm_display_detach e3 (seq_page_flip e1 e2 d ps A B).display
    (seq_page_flip e1 e2 d ps A B).plane_setup

/-- An environment in which the request is allocated, the blob gets id 7 and the
kernel accepts the commit. -/
def env_accept : CommitEnv :=
  { atomic_alloc := true, create_blob := some 7, atomic_commit := none }

/-- An environment in which the request is allocated, the blob gets id 7 and the
kernel rejects the commit with `errno = EBUSY` (16). -/
def env_reject : CommitEnv :=
  { atomic_alloc := true, create_blob := some 7, atomic_commit := some 16 }

/-- A registered ring buffer: the first primary buffer with framebuffer id 41. -/
def buffer_A : BufferArg :=
  { ptr := BufferPtr.primary 0, record := { drm_display_buffer.zero with fb_id := 41 } }

/-- A registered ring buffer: the second primary buffer with framebuffer id 42. -/
def buffer_B : BufferArg :=
  { ptr := BufferPtr.primary 1, record := { drm_display_buffer.zero with fb_id := 42 } }

/-- A plane setup that requests buffers of `width` x `height` in `format`. -/
def plane_setup_for (width height format : Nat) : drm_display_plane_setup :=
  { plane_setup_zero with buffer_width := width, buffer_height := height,
                          buffer_format := format }

/-- A kernel that serves every step of one buffer setup: handle 1, the given pitch
and size, map offset 0, mapping address 4096 and framebuffer id 1. -/
def env_buffer_ok (pitch size : Nat) : BufferEnv :=
  { create_dumb := CreateDumbReply.ok 1 pitch size, map_dumb := some 0, mmap := 4096,
    add_fb2 := some 1 }

/-- A kernel that refuses `DRM_IOCTL_MODE_CREATE_DUMB` with `errno = ENOMEM` (12). -/
def env_buffer_create_fails : BufferEnv :=
  { create_dumb := CreateDumbReply.fail 12, map_dumb := some 0, mmap := 4096,
    add_fb2 := some 1 }

/-- A kernel that serves every buffer of `drm_display_setup` with handle `i + 1`,
pitch 16, size 32, mapping address `4096 * (i + 1)` and framebuffer id `i + 41`. -/
def env_setup_ok : SetupEnv :=
  { primary := fun i =>
      { create_dumb := CreateDumbReply.ok (i + 1) 16 32, map_dumb := some 0,
        mmap := 4096 * (i + 1), add_fb2 := some (i + 41) },
    overlay := fun i =>
      { create_dumb := CreateDumbReply.ok (i + 3) 16 32, map_dumb := some 0,
        mmap := 4096 * (i + 3), add_fb2 := some (i + 43) } }

/-- The display of `test_color` before `drm_display_setup`: zero-initialised, with a
4 x 2 XRGB8888 primary surface requested and no overlay format. -/
def display_probed : drm_display :=
  { display_zero with primary_setup := plane_setup_for 4 2 DRM_FORMAT_XRGB8888 }

/-- The session of `test_color` after `drm_display_setup` and a `drm_display_configure`
of the primary plane with the first ring buffer, both served by the kernel. -/
def session_configured : Except Fault (Option drm_display) :=
  match drm_display_setup env_setup_ok (some display_probed) with
  | .error f => .error f
  | .ok r =>
    match r.display with
    | none => .ok none
    | some d =>
      let c := drm_display_configure env_accept (some d) (some d.primary_setup)
        (d.primary_buffers.get? 0 |>.map (fun b => ⟨BufferPtr.primary 0, b⟩))
      .ok (c.display.map (fun d1 =>
        { d1 with primary_setup := c.plane_setup.getD d1.primary_setup }))

/-- A teardown in which the kernel rejects the detach commits. -/
def env_teardown_reject : TeardownEnv :=
  { primary_detach := env_reject, overlay_detach := env_reject }

/-- A teardown in which the kernel accepts the detach commits. -/
def env_teardown_accept : TeardownEnv :=
  { primary_detach := env_accept, overlay_detach := env_accept }

/-- The display of `session_configured`, the zero display if there is none. -/
def session_display : drm_display :=
  match session_configured with
  | .ok (some d) => d
  | _ => display_zero

/-- A commit operation on a display, with what the kernel answers to it, the plane
setup it is applied to and its buffer argument. -/
inductive CommitOp where
  | configure (env : CommitEnv) (ps : drm_display_plane_setup) (b : BufferArg)
  | page_flip (env : CommitEnv) (ps : drm_display_plane_setup) (b : BufferArg)
  | detach (env : CommitEnv) (ps : drm_display_plane_setup)

/-- Runs one commit operation on the display. -/
def run_op (d : drm_display) : CommitOp → CommitResult
  | CommitOp.configure env ps b => drm_display_configure env (some d) (some ps) (some b)
  | CommitOp.page_flip env ps b => drm_display_page_flip env (some d) (some ps) (some b)
  | CommitOp.detach env ps => drm_display_detach env (some d) (some ps)

/-- The display after a series of commit operations, each run on the display the
previous one left. -/
def run_ops (d : drm_display) : List CommitOp → drm_display
  | [] => d
  | op :: ops => run_ops ((run_op d op).display.getD d) ops

/-- A probed plane setup: plane 31 with the property ids 2 to 12, a 4 x 2 buffer
shown at (16, 8) in a 640 x 480 rectangle. -/
def plane_setup_sample : drm_display_plane_setup :=
  { plane := ⟨31, 1, ⟨2, 3, 4, 5, 6, 7, 8, 9, 10, 11, 12⟩⟩, buffer_visible := none,
    buffer_width := 4, buffer_height := 2, buffer_format := DRM_FORMAT_XRGB8888,
    display_width := 640, display_height := 480, display_x := 16, display_y := 8,
    configured := false }

/-- A probed output on which a mode is already set: connector 20, CRTC 40. -/
def display_mode_set : drm_display :=
  { display_zero with
    output := ⟨⟨640, 480, 0⟩, 0, true, 20, ⟨4⟩, 40, ⟨13, 14⟩⟩ }

/-- The names of the properties 2 to 14 of the sample kernel. -/
def sample_property (prop_id : Nat) : Option drmModePropertyRes :=
  match prop_id with
  | 2 => some ⟨"type", 2⟩
  | 3 => some ⟨"FB_ID", 3⟩
  | 4 => some ⟨"CRTC_ID", 4⟩
  | 5 => some ⟨"SRC_W", 5⟩
  | 6 => some ⟨"SRC_H", 6⟩
  | 7 => some ⟨"SRC_X", 7⟩
  | 8 => some ⟨"SRC_Y", 8⟩
  | 9 => some ⟨"CRTC_W", 9⟩
  | 10 => some ⟨"CRTC_H", 10⟩
  | 11 => some ⟨"CRTC_X", 11⟩
  | 12 => some ⟨"CRTC_Y", 12⟩
  | 13 => some ⟨"ACTIVE", 13⟩
  | 14 => some ⟨"MODE_ID", 14⟩
  | _ => none

/-- The properties of a plane of the sample kernel, with the given `type` value. -/
def sample_plane_properties (type : Nat) : List (Nat × Nat) :=
  [(2, type), (3, 0), (4, 0), (5, 0), (6, 0), (7, 0), (8, 0), (9, 0), (10, 0), (11, 0),
   (12, 0)]

/-- A sample kernel: connector 20 connected through encoder 30 to CRTC 40 (index 0,
no mode set, preferred mode 640 x 480), the primary plane 31 that lists XRGB8888 and
the overlay plane 32 that lists NV12, both on CRTC index 0. The planes are
enumerated in the order `planes`. -/
def env_probe_sample (planes : List Nat) : ProbeEnv :=
  { set_cap_atomic := none,
    set_cap_universal_planes := none,
    get_resources := some ⟨[20], [40]⟩,
    get_connector := fun id =>
      if id = 20 then some ⟨20, DRM_MODE_CONNECTED, 30, [30], [⟨640, 480, 8⟩]⟩ else none,
    get_encoder := fun id => if id = 30 then some ⟨40, 1⟩ else none,
    get_crtc := fun id => if id = 40 then some ⟨0, ⟨0, 0, 0⟩⟩ else none,
    get_plane_resources := some planes,
    get_plane := fun id =>
      if id = 31 then some ⟨1, [DRM_FORMAT_XRGB8888]⟩
      else if id = 32 then some ⟨1, [DRM_FORMAT_NV12]⟩
      else none,
    object_get_properties := fun id _ =>
      if id = 20 then .ok [(4, 0)]
      else if id = 40 then .ok [(13, 0), (14, 0)]
      else if id = 31 then .ok (sample_plane_properties DRM_PLANE_TYPE_PRIMARY)
      else if id = 32 then .ok (sample_plane_properties DRM_PLANE_TYPE_OVERLAY)
      else .error 22,
    get_property := sample_property }

/-- A zero-initialised display on which an XRGB8888 primary surface and an NV12
overlay surface are requested. -/
def display_requesting : drm_display :=
  { display_zero with
    primary_setup := { plane_setup_zero with buffer_format := DRM_FORMAT_XRGB8888 },
    overlay_setup := { plane_setup_zero with buffer_format := DRM_FORMAT_NV12 } }

/-- The overlay plane that the plane loop holds once it has gone through the planes
`pre` without keeping a primary plane: the one held on entry when there is one,
else the probed record of the first plane of `pre` that can serve as overlay plane,
else the record held on entry. -/
def overlay_kept (env : ProbeEnv) (crtc_index : Nat) (pre : List Nat)
    (d : drm_display) : drm_display_plane :=
  if d.overlay_setup.plane.id ≠ 0 then d.overlay_setup.plane
  else
    match pre.find? (fun q =>
      plane_matches env crtc_index DRM_PLANE_TYPE_OVERLAY d.overlay_setup.buffer_format q) with
    | some q => (probed_plane env q).2
    | none => d.overlay_setup.plane

/-! ## Ring cycling (C1) -/

/-- Shifting the positions `0, ..., N - 1` by `i` modulo `N` rotates the list. -/
theorem map_add_mod_range (N i : Nat) :
    (List.range N).map (fun j => (i + j) % N) = (List.range N).rotate i := by
  apply List.ext_getElem
  · simp
  · intro n h1 h2
    simp [List.getElem_rotate, Nat.add_comm]

/-- The positions visited by `N` successive calls are a permutation of the ring. -/
theorem visited_perm {α : Type} (f : Nat → α) (N i : Nat) :
    List.Perm ((List.range N).map (fun j => f ((i + j) % N))) ((List.range N).map f) := by
  have h : (List.range N).map (fun j => f ((i + j) % N))
      = ((List.range N).map (fun j => (i + j) % N)).map f := by
    simp [List.map_map, Function.comp_def]
  rw [h, map_add_mod_range N i]
  exact (List.rotate_perm _ _).map f

/-- One call of the primary cycle on a non-empty ring. -/
theorem primary_cycle_step (d : drm_display) (h0 : 0 < d.primary_buffers_count)
    (hi : d.primary_buffers_index < d.primary_buffers_count)
    (h32 : d.primary_buffers_count < UINT_MOD) :
    drm_display_primary_buffer_cycle (some d)
      = .ok { buffer := some (BufferPtr.primary d.primary_buffers_index),
              display := some { d with primary_buffers_index :=
                (d.primary_buffers_index + 1) % d.primary_buffers_count } } := by
  have hlt : d.primary_buffers_index + 1 < UINT_MOD := by omega
  simp [drm_display_primary_buffer_cycle, Nat.ne_of_gt h0, Nat.mod_eq_of_lt hlt]

/-- One call of the overlay cycle on a non-empty ring. -/
theorem overlay_cycle_step (d : drm_display) (h0 : 0 < d.overlay_buffers_count)
    (hi : d.overlay_buffers_index < d.overlay_buffers_count)
    (h32 : d.overlay_buffers_count < UINT_MOD) :
    drm_display_overlay_buffer_cycle (some d)
      = .ok { buffer := some (BufferPtr.overlay d.overlay_buffers_index),
              display := some { d with overlay_buffers_index :=
                (d.overlay_buffers_index + 1) % d.overlay_buffers_count } } := by
  have hlt : d.overlay_buffers_index + 1 < UINT_MOD := by omega
  simp [drm_display_overlay_buffer_cycle, Nat.ne_of_gt h0, Nat.mod_eq_of_lt hlt]

/-- The pointers returned by `k` successive primary cycle calls, and the index left. -/
theorem primary_cycle_times (k : Nat) :
    ∀ (d : drm_display), 0 < d.primary_buffers_count →
      d.primary_buffers_index < d.primary_buffers_count →
      d.primary_buffers_count < UINT_MOD →
      cycle_times drm_display_primary_buffer_cycle k (some d)
        = .ok ((List.range k).map (fun j => some (BufferPtr.primary
                  ((d.primary_buffers_index + j) % d.primary_buffers_count))),
               some { d with primary_buffers_index :=
                  (d.primary_buffers_index + k) % d.primary_buffers_count }) := by
  induction k with
  | zero =>
    intro d _ hi _
    simp [cycle_times, Nat.mod_eq_of_lt hi]
  | succ k ih =>
    intro d h0 hi h32
    have hm : (d.primary_buffers_index + 1) % d.primary_buffers_count
        < d.primary_buffers_count := Nat.mod_lt _ h0
    have hstep := ih { d with primary_buffers_index :=
      (d.primary_buffers_index + 1) % d.primary_buffers_count } h0 hm h32
    simp only [cycle_times, primary_cycle_step d h0 hi h32, hstep]
    simp only [List.range_succ_eq_map, List.map_cons, List.map_map, Nat.add_zero,
      Nat.mod_eq_of_lt hi]
    have e1 : ∀ j, ((d.primary_buffers_index + 1) % d.primary_buffers_count + j)
        % d.primary_buffers_count
        = (d.primary_buffers_index + (j + 1)) % d.primary_buffers_count := by
      intro j
      rw [Nat.add_mod, Nat.mod_mod, ← Nat.add_mod]
      congr 1
      omega
    simp [Function.comp_def, e1]

/-- The pointers returned by `k` successive overlay cycle calls, and the index left. -/
theorem overlay_cycle_times (k : Nat) :
    ∀ (d : drm_display), 0 < d.overlay_buffers_count →
      d.overlay_buffers_index < d.overlay_buffers_count →
      d.overlay_buffers_count < UINT_MOD →
      cycle_times drm_display_overlay_buffer_cycle k (some d)
        = .ok ((List.range k).map (fun j => some (BufferPtr.overlay
                  ((d.overlay_buffers_index + j) % d.overlay_buffers_count))),
               some { d with overlay_buffers_index :=
                  (d.overlay_buffers_index + k) % d.overlay_buffers_count }) := by
  induction k with
  | zero =>
    intro d _ hi _
    simp [cycle_times, Nat.mod_eq_of_lt hi]
  | succ k ih =>
    intro d h0 hi h32
    have hm : (d.overlay_buffers_index + 1) % d.overlay_buffers_count
        < d.overlay_buffers_count := Nat.mod_lt _ h0
    have hstep := ih { d with overlay_buffers_index :=
      (d.overlay_buffers_index + 1) % d.overlay_buffers_count } h0 hm h32
    simp only [cycle_times, overlay_cycle_step d h0 hi h32, hstep]
    simp only [List.range_succ_eq_map, List.map_cons, List.map_map, Nat.add_zero,
      Nat.mod_eq_of_lt hi]
    have e1 : ∀ j, ((d.overlay_buffers_index + 1) % d.overlay_buffers_count + j)
        % d.overlay_buffers_count
        = (d.overlay_buffers_index + (j + 1)) % d.overlay_buffers_count := by
      intro j
      rw [Nat.add_mod, Nat.mod_mod, ← Nat.add_mod]
      congr 1
      omega
    simp [Function.comp_def, e1]

/-- The `k`-th of `k` successive primary cycle calls. -/
theorem primary_cycle_kth (d : drm_display) (h0 : 0 < d.primary_buffers_count)
    (h32 : d.primary_buffers_count < UINT_MOD)
    (hi : d.primary_buffers_index < d.primary_buffers_count) (k : Nat) (hk : 1 ≤ k) :
    ∃ earlier before,
      cycle_times drm_display_primary_buffer_cycle (k - 1) (some d)
        = .ok (earlier, some before) ∧
      drm_display_primary_buffer_cycle (some before)
        = .ok { buffer := some (BufferPtr.primary
                  ((d.primary_buffers_index + k - 1) % d.primary_buffers_count)),
                display := some { d with primary_buffers_index :=
                  (d.primary_buffers_index + k) % d.primary_buffers_count } } := by
  refine ⟨_, _, primary_cycle_times (k - 1) d h0 hi h32, ?_⟩
  have hm : (d.primary_buffers_index + (k - 1)) % d.primary_buffers_count
      < d.primary_buffers_count := Nat.mod_lt _ h0
  have hs := primary_cycle_step { d with primary_buffers_index :=
    (d.primary_buffers_index + (k - 1)) % d.primary_buffers_count } h0 hm h32
  rw [hs]
  have e1 : d.primary_buffers_index + k - 1 = d.primary_buffers_index + (k - 1) := by omega
  have e2 : ((d.primary_buffers_index + (k - 1)) % d.primary_buffers_count + 1)
      % d.primary_buffers_count
      = (d.primary_buffers_index + k) % d.primary_buffers_count := by
    rw [Nat.add_mod, Nat.mod_mod, ← Nat.add_mod]
    congr 1
    omega
  simp [e1, e2]

/-- The `k`-th of `k` successive overlay cycle calls. -/
theorem overlay_cycle_kth (d : drm_display) (h0 : 0 < d.overlay_buffers_count)
    (h32 : d.overlay_buffers_count < UINT_MOD)
    (hi : d.overlay_buffers_index < d.overlay_buffers_count) (k : Nat) (hk : 1 ≤ k) :
    ∃ earlier before,
      cycle_times drm_display_overlay_buffer_cycle (k - 1) (some d)
        = .ok (earlier, some before) ∧
      drm_display_overlay_buffer_cycle (some before)
        = .ok { buffer := some (BufferPtr.overlay
                  ((d.overlay_buffers_index + k - 1) % d.overlay_buffers_count)),
                display := some { d with overlay_buffers_index :=
                  (d.overlay_buffers_index + k) % d.overlay_buffers_count } } := by
  refine ⟨_, _, overlay_cycle_times (k - 1) d h0 hi h32, ?_⟩
  have hm : (d.overlay_buffers_index + (k - 1)) % d.overlay_buffers_count
      < d.overlay_buffers_count := Nat.mod_lt _ h0
  have hs := overlay_cycle_step { d with overlay_buffers_index :=
    (d.overlay_buffers_index + (k - 1)) % d.overlay_buffers_count } h0 hm h32
  rw [hs]
  have e1 : d.overlay_buffers_index + k - 1 = d.overlay_buffers_index + (k - 1) := by omega
  have e2 : ((d.overlay_buffers_index + (k - 1)) % d.overlay_buffers_count + 1)
      % d.overlay_buffers_count
      = (d.overlay_buffers_index + k) % d.overlay_buffers_count := by
    rw [Nat.add_mod, Nat.mod_mod, ← Nat.add_mod]
    congr 1
    omega
  simp [e1, e2]

/-- In a list of `N + 1` visited positions the last one is the first one again. -/
theorem visited_wraps {α : Type} (f : Nat → α) (N i : Nat) (hi : i < N) :
    ((List.range (N + 1)).map (fun j => f ((i + j) % N))).length = N + 1 ∧
    ((List.range (N + 1)).map (fun j => f ((i + j) % N)))[0]? = some (f i) ∧
    ((List.range (N + 1)).map (fun j => f ((i + j) % N)))[N]?
      = ((List.range (N + 1)).map (fun j => f ((i + j) % N)))[0]? := by
  refine ⟨by simp, ?_, ?_⟩
  · simp [List.getElem?_map, List.getElem?_range (Nat.succ_pos N), Nat.mod_eq_of_lt hi]
  · simp [List.getElem?_map, List.getElem?_range (Nat.succ_pos N),
      List.getElem?_range (Nat.lt_succ_self N), Nat.mod_eq_of_lt hi]

/-- C1: on a display whose primary ring has count N > 0 and index i < N (N a 32-bit
value), the k-th successive call of `drm_display_primary_buffer_cycle` returns the
ring buffer at position (i + k - 1) mod N and leaves the index at (i + k) mod N;
N successive calls return a permutation of the N ring buffers, and the (N+1)-th
call returns the buffer of the 1st. The same holds for
`drm_display_overlay_buffer_cycle` on the overlay ring. -/
theorem C1_buffer_cycle_round_robin (d : drm_display) :
    (0 < d.primary_buffers_count → d.primary_buffers_count < UINT_MOD →
      d.primary_buffers_index < d.primary_buffers_count →
      (∀ k, 1 ≤ k → ∃ earlier before,
        cycle_times drm_display_primary_buffer_cycle (k - 1) (some d)
          = .ok (earlier, some before) ∧
        drm_display_primary_buffer_cycle (some before)
          = .ok { buffer := some (BufferPtr.primary
                    ((d.primary_buffers_index + k - 1) % d.primary_buffers_count)),
                  display := some { d with primary_buffers_index :=
                    (d.primary_buffers_index + k) % d.primary_buffers_count } }) ∧
      (∃ bufs after,
        cycle_times drm_display_primary_buffer_cycle d.primary_buffers_count (some d)
          = .ok (bufs, after) ∧
        List.Perm bufs ((List.range d.primary_buffers_count).map
          (fun j => some (BufferPtr.primary j)))) ∧
      (∃ bufs after,
        cycle_times drm_display_primary_buffer_cycle (d.primary_buffers_count + 1) (some d)
          = .ok (bufs, after) ∧
        bufs.length = d.primary_buffers_count + 1 ∧
        bufs[0]? = some (some (BufferPtr.primary d.primary_buffers_index)) ∧
        bufs[d.primary_buffers_count]? = bufs[0]?)) ∧
    (0 < d.overlay_buffers_count → d.overlay_buffers_count < UINT_MOD →
      d.overlay_buffers_index < d.overlay_buffers_count →
      (∀ k, 1 ≤ k → ∃ earlier before,
        cycle_times drm_display_overlay_buffer_cycle (k - 1) (some d)
          = .ok (earlier, some before) ∧
        drm_display_overlay_buffer_cycle (some before)
          = .ok { buffer := some (BufferPtr.overlay
                    ((d.overlay_buffers_index + k - 1) % d.overlay_buffers_count)),
                  display := some { d with overlay_buffers_index :=
                    (d.overlay_buffers_index + k) % d.overlay_buffers_count } }) ∧
      (∃ bufs after,
        cycle_times drm_display_overlay_buffer_cycle d.overlay_buffers_count (some d)
          = .ok (bufs, after) ∧
        List.Perm bufs ((List.range d.overlay_buffers_count).map
          (fun j => some (BufferPtr.overlay j)))) ∧
      (∃ bufs after,
        cycle_times drm_display_overlay_buffer_cycle (d.overlay_buffers_count + 1) (some d)
          = .ok (bufs, after) ∧
        bufs.length = d.overlay_buffers_count + 1 ∧
        bufs[0]? = some (some (BufferPtr.overlay d.overlay_buffers_index)) ∧
        bufs[d.overlay_buffers_count]? = bufs[0]?)) := by
  refine ⟨fun h0 h32 hi => ⟨fun k hk => primary_cycle_kth d h0 h32 hi k hk, ?_, ?_⟩,
          fun h0 h32 hi => ⟨fun k hk => overlay_cycle_kth d h0 h32 hi k hk, ?_, ?_⟩⟩
  · exact ⟨_, _, primary_cycle_times _ d h0 hi h32,
      visited_perm (fun j => some (BufferPtr.primary j)) _ _⟩
  · exact ⟨_, _, primary_cycle_times _ d h0 hi h32,
      visited_wraps (fun j => some (BufferPtr.primary j)) _ _ hi⟩
  · exact ⟨_, _, overlay_cycle_times _ d h0 hi h32,
      visited_perm (fun j => some (BufferPtr.overlay j)) _ _⟩
  · exact ⟨_, _, overlay_cycle_times _ d h0 hi h32,
      visited_wraps (fun j => some (BufferPtr.overlay j)) _ _ hi⟩

/-- Witness of C1 on a display with two rings of two buffers: three calls return
the first buffer, the second and the first again. -/
theorem C1_buffer_cycle_round_robin_witness :
    (∃ bufs after,
      cycle_times drm_display_primary_buffer_cycle 3 (some display_rings)
        = .ok (bufs, after) ∧
      bufs.length = 3 ∧ bufs[0]? = some (some (BufferPtr.primary 0)) ∧
      bufs[2]? = bufs[0]?) ∧
    (∃ bufs after,
      cycle_times drm_display_overlay_buffer_cycle 3 (some display_rings)
        = .ok (bufs, after) ∧
      bufs.length = 3 ∧ bufs[0]? = some (some (BufferPtr.overlay 0)) ∧
      bufs[2]? = bufs[0]?) :=
  ⟨((C1_buffer_cycle_round_robin display_rings).1
      (by decide) (by decide) (by decide)).2.2,
   ((C1_buffer_cycle_round_robin display_rings).2
      (by decide) (by decide) (by decide)).2.2⟩

/-! ## Page flip on an unconfigured plane (C2) -/

/-- C2: for every display, plane setup whose `configured` flag is false and buffer,
`drm_display_page_flip` returns a non-zero error (-1), issues no kernel call, so no
atomic commit, and leaves the display, the plane setup and the buffer as they were. -/
theorem C2_page_flip_not_configured (env : CommitEnv) (d : drm_display)
    (ps : drm_display_plane_setup) (b : BufferArg) (h : ps.configured = false) :
    (drm_display_page_flip env (some d) (some ps) (some b)).ret = -1 ∧
    (drm_display_page_flip env (some d) (some ps) (some b)).ret ≠ 0 ∧
    (drm_display_page_flip env (some d) (some ps) (some b)).calls = [] ∧
    (∀ flags request, KCall.atomic_commit flags request ∉
      (drm_display_page_flip env (some d) (some ps) (some b)).calls) ∧
    (drm_display_page_flip env (some d) (some ps) (some b)).display = some d ∧
    (drm_display_page_flip env (some d) (some ps) (some b)).plane_setup = some ps ∧
    (drm_display_page_flip env (some d) (some ps) (some b)).buffer = some b.record := by
  simp [drm_display_page_flip, h]

/-- Witness of C2: a page flip on the zero-initialised primary setup. -/
theorem C2_page_flip_not_configured_witness :
    (drm_display_page_flip env_accept (some display_zero) (some plane_setup_zero)
      (some buffer_A)).ret = -1 ∧
    (drm_display_page_flip env_accept (some display_zero) (some plane_setup_zero)
      (some buffer_A)).calls = [] ∧
    (drm_display_page_flip env_accept (some display_zero) (some plane_setup_zero)
      (some buffer_A)).plane_setup = some plane_setup_zero :=
  have h := C2_page_flip_not_configured env_accept display_zero plane_setup_zero
    buffer_A rfl
  ⟨h.1, h.2.2.1, h.2.2.2.2.2.1⟩

/-! ## Configure, page flip, detach (C3) -/

/-- An accepted configure: return value, plane setup and buffer after the call. -/
theorem configure_accepted (env : CommitEnv) (d : drm_display)
    (ps : drm_display_plane_setup) (b : BufferArg)
    (ha : env.atomic_alloc = true) (hc : env.atomic_commit = none) :
    ∃ d1, (drm_display_configure env (some d) (some ps) (some b)).display = some d1 ∧
      d1.output.mode_set = true ∧
      (drm_display_configure env (some d) (some ps) (some b)).ret = 0 ∧
      (drm_display_configure env (some d) (some ps) (some b)).plane_setup
        = some { ps with buffer_visible := some b.ptr, configured := true } ∧
      (drm_display_configure env (some d) (some ps) (some b)).buffer = some b.record := by
  simp only [drm_display_configure, ha, hc]
  cases hm : d.output.mode_set <;> cases hb : env.create_blob <;> simp [hm]

/-- An accepted page flip on a configured plane setup. -/
theorem page_flip_accepted (env : CommitEnv) (d : drm_display)
    (ps : drm_display_plane_setup) (b : BufferArg) (hconf : ps.configured = true)
    (ha : env.atomic_alloc = true) (hc : env.atomic_commit = none) :
    drm_display_page_flip env (some d) (some ps) (some b)
      = { ret := 0, display := some d,
          plane_setup := some { ps with buffer_visible := some b.ptr },
          buffer := some b.record,
          calls := [KCall.atomic_commit 0
            [⟨ps.plane.id, ps.plane.properties.fb_id, b.record.fb_id⟩,
             ⟨ps.plane.id, ps.plane.properties.crtc_id, d.output.crtc_id⟩]] } := by
  simp [drm_display_page_flip, hconf, ha, hc]

/-- An accepted detach of a configured plane setup. -/
theorem detach_accepted (env : CommitEnv) (d : drm_display)
    (ps : drm_display_plane_setup) (hconf : ps.configured = true)
    (ha : env.atomic_alloc = true) (hc : env.atomic_commit = none) :
    drm_display_detach env (some d) (some ps)
      = { ret := 0, display := some d,
          plane_setup := some { ps with buffer_visible := none, configured := false },
          buffer := none,
          calls := [KCall.atomic_commit 0
            [⟨ps.plane.id, ps.plane.properties.fb_id, 0⟩,
             ⟨ps.plane.id, ps.plane.properties.crtc_id, 0⟩]] } := by
  simp [drm_display_detach, hconf, ha, hc]

/-- A page flip that the kernel rejects leaves the plane setup and the display as
they were. -/
theorem page_flip_rejected (env : CommitEnv) (errno : Nat) (d : drm_display)
    (ps : drm_display_plane_setup) (b : BufferArg)
    (hr : env.atomic_commit = some errno) :
    (drm_display_page_flip env (some d) (some ps) (some b)).plane_setup = some ps ∧
    (drm_display_page_flip env (some d) (some ps) (some b)).display = some d := by
  simp only [drm_display_page_flip, hr]
  cases ps.configured <;> cases env.atomic_alloc <;> simp

/-- C3: when each request is allocated and the kernel accepts each atomic commit,
after `drm_display_configure` with A `configured` is true and `buffer_visible` is A;
after the following `drm_display_page_flip` with B `configured` is still true and
`buffer_visible` is B; after the following `drm_display_detach` `configured` is
false and `buffer_visible` is null. A page flip (with any buffer C) that the kernel
rejects, after the configure or after the flip, leaves the plane setup, hence
`buffer_visible`, as the last accepted commit left it. -/
theorem C3_configure_flip_detach (e1 e2 e3 er : CommitEnv) (errno : Nat)
    (d : drm_display) (ps : drm_display_plane_setup) (A B C : BufferArg)
    (h1a : e1.atomic_alloc = true) (h1c : e1.atomic_commit = none)
    (h2a : e2.atomic_alloc = true) (h2c : e2.atomic_commit = none)
    (h3a : e3.atomic_alloc = true) (h3c : e3.atomic_commit = none)
    (hr : er.atomic_commit = some errno) :
    (∃ d1 ps1, (seq_configure e1 d ps A).display = some d1 ∧
      (seq_configure e1 d ps A).plane_setup = some ps1 ∧
      (seq_configure e1 d ps A).ret = 0 ∧
      ps1.configured = true ∧ ps1.buffer_visible = some A.ptr ∧
      (drm_display_page_flip er (some d1) (some ps1) (some C)).plane_setup = some ps1) ∧
    (∃ d2 ps2, (seq_page_flip e1 e2 d ps A B).display = some d2 ∧
      (seq_page_flip e1 e2 d ps A B).plane_setup = some ps2 ∧
      (seq_page_flip e1 e2 d ps A B).ret = 0 ∧
      ps2.configured = true ∧ ps2.buffer_visible = some B.ptr ∧
      (drm_display_page_flip er (some d2) (some ps2) (some C)).plane_setup = some ps2) ∧
    (∃ d3 ps3, (seq_detach e1 e2 e3 d ps A B).display = some d3 ∧
      (seq_detach e1 e2 e3 d ps A B).plane_setup = some ps3 ∧
      (seq_detach e1 e2 e3 d ps A B).ret = 0 ∧
      ps3.configured = false ∧ ps3.buffer_visible = none) := by
  obtain ⟨d1, hd1, -, hret1, hps1, -⟩ := configure_accepted e1 d ps A h1a h1c
  have hflip : seq_page_flip e1 e2 d ps A B
      = drm_display_page_flip e2 (some d1)
          (some { ps with buffer_visible := some A.ptr, configured := true }) (some B) := by
    simp only [seq_page_flip, seq_configure, hd1, hps1]
  rw [page_flip_accepted e2 d1 _ B rfl h2a h2c] at hflip
  have hdet : seq_detach e1 e2 e3 d ps A B
      = drm_display_detach e3 (some d1)
          (some { ps with buffer_visible := some B.ptr, configured := true }) := by
    simp only [seq_detach, hflip]
  rw [detach_accepted e3 d1 _ rfl h3a h3c] at hdet
  refine ⟨⟨d1, { ps with buffer_visible := some A.ptr, configured := true },
      hd1, hps1, hret1, rfl, rfl, (page_flip_rejected er errno d1 _ C hr).1⟩,
    ⟨d1, { ps with buffer_visible := some B.ptr, configured := true },
      ?_, ?_, ?_, rfl, rfl, (page_flip_rejected er errno d1 _ C hr).1⟩,
    ⟨d1, { ps with buffer_visible := none, configured := false }, ?_, ?_, ?_, rfl, rfl⟩⟩
  all_goals first
    | rw [hflip]
    | rw [hdet]

/-- Witness of C3: the sequence of `test_color` on the zero-initialised display. -/
theorem C3_configure_flip_detach_witness :
    (seq_configure env_accept display_zero plane_setup_zero buffer_A).ret = 0 ∧
    (seq_page_flip env_accept env_accept display_zero plane_setup_zero buffer_A
      buffer_B).ret = 0 ∧
    (∃ d3 ps3, (seq_detach env_accept env_accept env_accept display_zero plane_setup_zero
        buffer_A buffer_B).display = some d3 ∧
      (seq_detach env_accept env_accept env_accept display_zero plane_setup_zero
        buffer_A buffer_B).plane_setup = some ps3 ∧
      (seq_detach env_accept env_accept env_accept display_zero plane_setup_zero
        buffer_A buffer_B).ret = 0 ∧
      ps3.configured = false ∧ ps3.buffer_visible = none) :=
  have h := C3_configure_flip_detach env_accept env_accept env_accept env_reject 16
    display_zero plane_setup_zero buffer_A buffer_B buffer_A rfl rfl rfl rfl rfl rfl rfl
  ⟨by obtain ⟨⟨_, _, _, _, h1, _⟩, _⟩ := h; exact h1,
   by obtain ⟨_, ⟨_, _, _, _, h2, _⟩, _⟩ := h; exact h2,
   h.2.2⟩

/-! ## Rejected configure (C4) -/

/-- C4 as stated fails: on the zero-initialised display (no mode set) a configure
that the kernel rejects with `errno = 16` returns -16 but leaves the id of the blob
it uploaded, 7, in `mode_blob_id`, which was 0 on entry; and on a plane setup that
was configured on entry `configured` is still true on return. -/
theorem C4_counterexample :
    (drm_display_configure env_reject (some display_zero) (some plane_setup_zero)
      (some buffer_A)).ret = -16 ∧
    display_zero.output.mode_blob_id = 0 ∧
    (drm_display_configure env_reject (some display_zero) (some plane_setup_zero)
      (some buffer_A)).display
      = some { display_zero with output := { display_zero.output with mode_blob_id := 7 } } ∧
    (drm_display_configure env_reject (some display_zero) (some plane_setup_zero)
      (some buffer_A)).display ≠ some display_zero ∧
    (drm_display_configure env_reject (some display_zero)
      (some { plane_setup_zero with configured := true }) (some buffer_A)).plane_setup
      = some { plane_setup_zero with configured := true } := by
  decide

/-- C4, amended: when the kernel rejects the atomic commit of
`drm_display_configure` with error code e, the call returns -e and leaves the plane
setup (`configured`, `buffer_visible`) and the buffer as they were on entry, so
`configured` is false on return when it was false on entry; `mode_set` and every
field of the display other than `output.mode_blob_id` are unchanged, and
`mode_blob_id` is unchanged too when `mode_set` was true on entry. -/
theorem C4_configure_rejected (env : CommitEnv) (errno : Nat) (d : drm_display)
    (ps : drm_display_plane_setup) (b : BufferArg)
    (ha : env.atomic_alloc = true) (hc : env.atomic_commit = some errno) :
    (drm_display_configure env (some d) (some ps) (some b)).ret = -(errno : Int) ∧
    (drm_display_configure env (some d) (some ps) (some b)).plane_setup = some ps ∧
    (ps.configured = false →
      ∃ ps1, (drm_display_configure env (some d) (some ps) (some b)).plane_setup = some ps1 ∧
        ps1.configured = false ∧ ps1.buffer_visible = ps.buffer_visible) ∧
    (drm_display_configure env (some d) (some ps) (some b)).buffer = some b.record ∧
    (∃ d1, (drm_display_configure env (some d) (some ps) (some b)).display = some d1 ∧
      d1.output.mode_set = d.output.mode_set ∧
      d1 = { d with output := { d.output with mode_blob_id := d1.output.mode_blob_id } } ∧
      (d.output.mode_set = true → d1 = d)) := by
  simp only [drm_display_configure, ha, hc]
  rcases d with ⟨_, _, ⟨_, _, ms, _, _, _, _⟩, _, _, _, _, _, _, _, _, _, _⟩
  cases ms <;> cases hb : env.create_blob <;> simp

/-- Witness of C4: a rejected configure on a display whose mode is already set. -/
theorem C4_configure_rejected_witness :
    (drm_display_configure env_reject
      (some { display_zero with output := { display_zero.output with mode_set := true } })
      (some plane_setup_zero) (some buffer_A)).ret = -16 ∧
    (drm_display_configure env_reject
      (some { display_zero with output := { display_zero.output with mode_set := true } })
      (some plane_setup_zero) (some buffer_A)).plane_setup = some plane_setup_zero :=
  have h := C4_configure_rejected env_reject 16
    { display_zero with output := { display_zero.output with mode_set := true } }
    plane_setup_zero buffer_A rfl rfl
  ⟨h.1, h.2.1⟩

/-! ## Unsupported format (C5) -/

/-- C5: for every display, buffer record and plane setup whose `buffer_format` is
none of XRGB8888, ARGB8888, NV12 and YUV420, `drm_display_buffer_setup` returns
`-EINVAL` and has issued no kernel call: no dumb-buffer create, no map, no mmap and
no framebuffer registration. -/
theorem C5_unsupported_format (env : BufferEnv) (d : drm_display)
    (b : drm_display_buffer) (ps : drm_display_plane_setup)
    (h1 : ps.buffer_format ≠ DRM_FORMAT_XRGB8888)
    (h2 : ps.buffer_format ≠ DRM_FORMAT_ARGB8888)
    (h3 : ps.buffer_format ≠ DRM_FORMAT_NV12)
    (h4 : ps.buffer_format ≠ DRM_FORMAT_YUV420) :
    (drm_display_buffer_setup env (some d) (some b) (some ps)).ret = -EINVAL ∧
    (drm_display_buffer_setup env (some d) (some b) (some ps)).ret ≠ 0 ∧
    (drm_display_buffer_setup env (some d) (some b) (some ps)).calls = [] := by
  simp [drm_display_buffer_setup, create_dumb_request, h1, h2, h3, h4, EINVAL]

/-- Witness of C5: the format code 0 of a zero-initialised plane setup. -/
theorem C5_unsupported_format_witness :
    (drm_display_buffer_setup ⟨CreateDumbReply.ok 1 4 4, some 0, 4096, some 1⟩
      (some display_zero) (some drm_display_buffer.zero) (some plane_setup_zero)).ret
      = -EINVAL ∧
    (drm_display_buffer_setup ⟨CreateDumbReply.ok 1 4 4, some 0, 4096, some 1⟩
      (some display_zero) (some drm_display_buffer.zero) (some plane_setup_zero)).calls
      = [] :=
  have h := C5_unsupported_format ⟨CreateDumbReply.ok 1 4 4, some 0, 4096, some 1⟩
    display_zero drm_display_buffer.zero plane_setup_zero
    (by decide) (by decide) (by decide) (by decide)
  ⟨h.1, h.2.2⟩

/-! ## Planes of an allocated buffer (C6) -/

/-- Evaluation for C7: when `DRM_IOCTL_MODE_CREATE_DUMB` fails with `errno = 12` for
a 1 x 1 XRGB8888 buffer whose record is all zero on entry, the call returns -12
through the early `return -errno` and the record keeps `width = 1`, `height = 1`
and `format = DRM_FORMAT_XRGB8888`: it is not all zero. -/
theorem C7_create_failure_keeps_fields :
    drm_display_buffer_setup env_buffer_create_fails (some display_zero)
      (some drm_display_buffer.zero) (some (plane_setup_for 1 1 DRM_FORMAT_XRGB8888))
      = { ret := -12,
          buffer := some { drm_display_buffer.zero with
            width := 1, height := 1, format := DRM_FORMAT_XRGB8888 },
          calls := [KCall.create_dumb 1 1 32] } ∧
    (drm_display_buffer_setup env_buffer_create_fails (some display_zero)
      (some drm_display_buffer.zero)
      (some (plane_setup_for 1 1 DRM_FORMAT_XRGB8888))).buffer
      ≠ some drm_display_buffer.zero := by
  decide

/-- The chroma plane step keeps the handle of plane 0. -/
theorem buffer_planes_handles_e0 (b : drm_display_buffer) :
    (buffer_planes b).handles.e0 = b.handles.e0 := by
  unfold buffer_planes
  split_ifs <;> rfl

/-- The steps after the create do unwind: for a supported format, when the dumb
buffer was created with a non-zero handle and the map, the mmap or the framebuffer
registration fails, the call returns -1, the record is all zero on return and the
dumb buffer has been destroyed. -/
theorem buffer_setup_unwinds (env : BufferEnv) (d : drm_display)
    (b : drm_display_buffer) (ps : drm_display_plane_setup) (handle pitch size : Nat)
    (hf : ps.buffer_format = DRM_FORMAT_XRGB8888 ∨ ps.buffer_format = DRM_FORMAT_ARGB8888 ∨
      ps.buffer_format = DRM_FORMAT_NV12 ∨ ps.buffer_format = DRM_FORMAT_YUV420)
    (hc : env.create_dumb = CreateDumbReply.ok handle pitch size) (hh : handle ≠ 0)
    (hfail : env.map_dumb = none ∨ env.mmap = MAP_FAILED ∨ env.add_fb2 = none) :
    (drm_display_buffer_setup env (some d) (some b) (some ps)).ret = -1 ∧
    (drm_display_buffer_setup env (some d) (some b) (some ps)).buffer
      = some drm_display_buffer.zero ∧
    KCall.destroy_dumb handle ∈
      (drm_display_buffer_setup env (some d) (some b) (some ps)).calls := by
  have hreq : ∃ q, create_dumb_request
      { b with width := ps.buffer_width, height := ps.buffer_height,
               format := ps.buffer_format } = some q := by
    unfold create_dumb_request
    rcases hf with h | h | h | h <;> simp [h] <;> split_ifs <;> simp
  obtain ⟨⟨cw, ch, bpp⟩, hq⟩ := hreq
  simp only [drm_display_buffer_setup, hq, hc]
  cases hmap : env.map_dumb with
  | none => simp [buffer_setup_error, hh]; split <;> simp
  | some offset =>
    by_cases hmm : env.mmap = MAP_FAILED
    · simp [buffer_setup_error, hh, hmm]
    · cases hfb : env.add_fb2 with
      | none =>
        simp only [hmm, if_false]
        simp [buffer_setup_error, hh, buffer_planes_handles_e0]
        split <;> simp
      | some fb =>
        rcases hfail with h | h | h
        · simp [hmap] at h
        · exact absurd h hmm
        · simp [hfb] at h

/-! ## Teardown (C8) -/

/-- The teardown loop over a ring whose count is within the array and whose buffers
past the count are zero leaves every buffer of the array zero; the calls it issues
do not depend on the display. -/
theorem buffers_teardown_zero (bufs : BufferArray) (count : Nat)
    (hc : count ≤ ARRAY_SIZE_buffers)
    (h0 : count ≤ 0 → bufs.b0 = drm_display_buffer.zero)
    (h1 : count ≤ 1 → bufs.b1 = drm_display_buffer.zero) :
    ∃ calls, ∀ dd : drm_display, buffers_teardown dd bufs count 0
      = .ok (⟨drm_display_buffer.zero, drm_display_buffer.zero⟩, calls) := by
  unfold ARRAY_SIZE_buffers at hc
  rcases bufs with ⟨b0, b1⟩
  interval_cases count
  · refine ⟨[], fun dd => ?_⟩
    simp at h0 h1
    simp [buffers_teardown, h0, h1]
  · refine ⟨(drm_display_buffer_teardown (some display_zero) (some b0)).calls, fun dd => ?_⟩
    simp at h1
    simp [buffers_teardown, BufferArray.get?, BufferArray.set?, drm_display_buffer_teardown, h1]
  · refine ⟨(drm_display_buffer_teardown (some display_zero) (some b0)).calls ++
      (drm_display_buffer_teardown (some display_zero) (some b1)).calls, fun dd => ?_⟩
    simp [buffers_teardown, BufferArray.get?, BufferArray.set?, drm_display_buffer_teardown]

/-- What a detach leaves in the plane setup: cleared when it was configured, the
request was allocated and the kernel accepted the commit; untouched otherwise. -/
theorem detach_plane_setup (env : CommitEnv) (d : drm_display)
    (ps : drm_display_plane_setup) :
    (drm_display_detach env (some d) (some ps)).plane_setup
      = some (if ps.configured = true ∧ env.atomic_alloc = true ∧ env.atomic_commit = none
          then { ps with buffer_visible := none, configured := false } else ps) := by
  unfold drm_display_detach
  cases hcf : ps.configured <;> cases ha : env.atomic_alloc <;>
    cases hc : env.atomic_commit <;> simp [hcf]

/-- A successful `drm_display_setup` on a display whose overlay ring is still empty
and all zero leaves a session on which `drm_display_teardown` applies: it is up, the
primary count is the array length, the overlay count is the array length or the
overlay ring is still empty and all zero, and the `configured` and `buffer_visible`
fields of the two plane setups are as before. -/
theorem setup_leaves_session (env : SetupEnv) (d : drm_display) (r : SessionResult)
    (hup : d.up = false) (hoc : d.overlay_buffers_count = 0)
    (hob : d.overlay_buffers = ⟨drm_display_buffer.zero, drm_display_buffer.zero⟩)
    (h : drm_display_setup env (some d) = .ok r) (hret : r.ret = 0) :
    ∃ d1, r.display = some d1 ∧ d1.up = true ∧
      d1.primary_buffers_count = ARRAY_SIZE_buffers ∧
      (d1.overlay_buffers_count = ARRAY_SIZE_buffers ∨
        (d1.overlay_buffers_count = 0 ∧
          d1.overlay_buffers = ⟨drm_display_buffer.zero, drm_display_buffer.zero⟩)) ∧
      d1.primary_setup.configured = d.primary_setup.configured ∧
      d1.primary_setup.buffer_visible = d.primary_setup.buffer_visible ∧
      d1.overlay_setup.configured = d.overlay_setup.configured ∧
      d1.overlay_setup.buffer_visible = d.overlay_setup.buffer_visible := by
  have hds : ∀ ps : drm_display_plane_setup,
      (default_display_size ps).configured = ps.configured ∧
      (default_display_size ps).buffer_visible = ps.buffer_visible ∧
      (default_display_size ps).buffer_format = ps.buffer_format := by
    intro ps
    unfold default_display_size
    split_ifs <;> simp
  simp only [drm_display_setup, hup, Bool.false_eq_true, if_false] at h
  split at h
  · cases h
  · rename_i ret bufs calls heq
    split_ifs at h with h1 h2
    · cases h
      simp at hret
    · cases h
      exact ⟨_, rfl, rfl, rfl, Or.inr ⟨hoc, hob⟩, (hds _).1, (hds _).2.1, rfl, rfl⟩
    · split at h
      · cases h
      · rename_i ret2 bufs2 calls2 heq2
        split_ifs at h with h3
        · cases h
          simp at hret
        · cases h
          exact ⟨_, rfl, rfl, rfl, Or.inl rfl, (hds _).1, (hds _).2.1, (hds _).1, (hds _).2.1⟩

/-- The commit operations keep the link between the two bookkeeping fields of a
plane setup: when `configured` is false, `buffer_visible` is null. -/
theorem commit_keeps_visible_link (env : CommitEnv) (d : drm_display)
    (ps : drm_display_plane_setup) (b : BufferArg)
    (h : ps.configured = false → ps.buffer_visible = none) :
    (∀ ps1, (drm_display_configure env (some d) (some ps) (some b)).plane_setup = some ps1 →
      ps1.configured = false → ps1.buffer_visible = none) ∧
    (∀ ps1, (drm_display_page_flip env (some d) (some ps) (some b)).plane_setup = some ps1 →
      ps1.configured = false → ps1.buffer_visible = none) ∧
    (∀ ps1, (drm_display_detach env (some d) (some ps)).plane_setup = some ps1 →
      ps1.configured = false → ps1.buffer_visible = none) := by
  refine ⟨?_, ?_, ?_⟩
  · intro ps1
    simp only [drm_display_configure]
    cases env.atomic_alloc <;> cases env.atomic_commit <;> simp <;> intro h1 <;>
      subst h1 <;> first | exact h | simp
  · intro ps1
    simp only [drm_display_page_flip]
    cases hcf : ps.configured <;> cases env.atomic_alloc <;> cases env.atomic_commit <;>
      simp <;> intro h1 <;> subst h1 <;> first | exact h | simp [hcf]
  · intro ps1
    rw [detach_plane_setup]
    intro h1
    simp only [Option.some.injEq] at h1
    subst h1
    split_ifs
    · simp
    · exact h

/-- C8 as stated fails: in the session of `test_color` (setup, then configure of the
primary plane with the first ring buffer), a teardown whose detach commit the kernel
rejects returns 0 and zeroes the ring buffers, but the primary plane setup still has
`configured = true` and `buffer_visible` pointing to the first ring buffer. -/
theorem C8_counterexample :
    ∃ d d1 calls, session_configured = .ok (some d) ∧ d.up = true ∧
      drm_display_teardown env_teardown_reject (some d)
        = .ok { ret := 0, display := some d1, calls := calls } ∧
      d1.primary_buffers = ⟨drm_display_buffer.zero, drm_display_buffer.zero⟩ ∧
      d1.primary_setup.configured = true ∧
      d1.primary_setup.buffer_visible = some (BufferPtr.primary 0) := by
  exact ⟨_, _, _, rfl, rfl, rfl, rfl, rfl, rfl⟩

/-- C8, amended: for every display session that is up, whose ring counts are within
the arrays, whose ring buffers past the count are all zero and whose unconfigured
plane setups have `buffer_visible` null (what `drm_display_setup` and the commit
operations leave of a zero-initialised display), `drm_display_teardown` returns 0
and on return `up` is false, `mode_blob_id` is 0 and every buffer record of the
primary and overlay rings is all zero; a plane setup that was not configured, or
whose detach request was allocated and accepted by the kernel, has
`configured = false` and `buffer_visible = null`. For a session that is not up the
call returns `-EINVAL` and changes nothing. -/
theorem C8_teardown (env : TeardownEnv) (d : drm_display) (hup : d.up = true)
    (hpc : d.primary_buffers_count ≤ ARRAY_SIZE_buffers)
    (hoc : d.overlay_buffers_count ≤ ARRAY_SIZE_buffers)
    (hp0 : d.primary_buffers_count ≤ 0 → d.primary_buffers.b0 = drm_display_buffer.zero)
    (hp1 : d.primary_buffers_count ≤ 1 → d.primary_buffers.b1 = drm_display_buffer.zero)
    (ho0 : d.overlay_buffers_count ≤ 0 → d.overlay_buffers.b0 = drm_display_buffer.zero)
    (ho1 : d.overlay_buffers_count ≤ 1 → d.overlay_buffers.b1 = drm_display_buffer.zero)
    (hpv : d.primary_setup.configured = false → d.primary_setup.buffer_visible = none)
    (hov : d.overlay_setup.configured = false → d.overlay_setup.buffer_visible = none) :
    (∃ d1 calls, drm_display_teardown env (some d)
        = .ok { ret := 0, display := some d1, calls := calls } ∧
      d1.up = false ∧ d1.output.mode_blob_id = 0 ∧
      d1.primary_buffers = ⟨drm_display_buffer.zero, drm_display_buffer.zero⟩ ∧
      d1.overlay_buffers = ⟨drm_display_buffer.zero, drm_display_buffer.zero⟩ ∧
      ((d.primary_setup.configured = true → env.primary_detach.atomic_alloc = true ∧
          env.primary_detach.atomic_commit = none) →
        d1.primary_setup.configured = false ∧ d1.primary_setup.buffer_visible = none) ∧
      ((d.overlay_setup.configured = true → env.overlay_detach.atomic_alloc = true ∧
          env.overlay_detach.atomic_commit = none) →
        d1.overlay_setup.configured = false ∧ d1.overlay_setup.buffer_visible = none)) ∧
    (∀ (env0 : TeardownEnv) (d0 : drm_display), d0.up = false →
      drm_display_teardown env0 (some d0)
        = .ok { ret := -EINVAL, display := some d0, calls := [] }) := by
  obtain ⟨c1, hc1⟩ := buffers_teardown_zero d.primary_buffers d.primary_buffers_count
    hpc hp0 hp1
  obtain ⟨c2, hc2⟩ := buffers_teardown_zero d.overlay_buffers d.overlay_buffers_count
    hoc ho0 ho1
  refine ⟨?_, fun env0 d0 h0 => by simp [drm_display_teardown, h0]⟩
  by_cases hb : d.output.mode_blob_id = 0 <;>
    cases hcp : d.primary_setup.configured <;>
    cases hco : d.overlay_setup.configured <;>
    simp [drm_display_teardown, hup, hc1, hc2, hb, hcp, hco, detach_plane_setup]
  all_goals refine ⟨?_, ?_⟩
  all_goals first
    | exact hpv hcp
    | exact hov hco
    | (intro h1 h2; simp [h1, h2])

/-- Witness of C8: the teardown of the session of `test_color` when the kernel
accepts the detach commit. -/
theorem C8_teardown_witness :
    ∃ d1 calls, drm_display_teardown env_teardown_accept (some session_display)
        = .ok { ret := 0, display := some d1, calls := calls } ∧
      d1.up = false ∧
      d1.primary_buffers = ⟨drm_display_buffer.zero, drm_display_buffer.zero⟩ ∧
      d1.primary_setup.configured = false ∧ d1.primary_setup.buffer_visible = none := by
  obtain ⟨d1, calls, h, hup, -, hb, -, hp, -⟩ :=
    (C8_teardown env_teardown_accept session_display rfl (by decide) (by decide)
      (by decide) (by decide) (by decide) (by decide) (by decide) (by decide)).1
  exact ⟨d1, calls, h, hup, hb, (hp (fun _ => ⟨rfl, rfl⟩)).1, (hp (fun _ => ⟨rfl, rfl⟩)).2⟩

/-! ## Empty ring (C9) -/

/-- What the cycle calls do, case by case: a null display gives `NULL`; a ring with
count 0 gives a division by zero, for any index; a ring with count > 0 gives a
buffer. -/
theorem cycle_outcomes (d : drm_display) :
    drm_display_primary_buffer_cycle none = .ok { buffer := none, display := none } ∧
    drm_display_overlay_buffer_cycle none = .ok { buffer := none, display := none } ∧
    (d.primary_buffers_count = 0 →
      drm_display_primary_buffer_cycle (some d) = .error Fault.division_by_zero) ∧
    (d.overlay_buffers_count = 0 →
      drm_display_overlay_buffer_cycle (some d) = .error Fault.division_by_zero) ∧
    (0 < d.primary_buffers_count → ∃ ptr d1,
      drm_display_primary_buffer_cycle (some d) = .ok { buffer := some ptr, display := some d1 }) ∧
    (0 < d.overlay_buffers_count → ∃ ptr d1,
      drm_display_overlay_buffer_cycle (some d) = .ok { buffer := some ptr, display := some d1 }) := by
  refine ⟨rfl, rfl, ?_, ?_, ?_, ?_⟩
  · intro h
    simp [drm_display_primary_buffer_cycle, h]
  · intro h
    simp [drm_display_overlay_buffer_cycle, h]
  · intro h
    simp [drm_display_primary_buffer_cycle, Nat.ne_of_gt h]
  · intro h
    simp [drm_display_overlay_buffer_cycle, Nat.ne_of_gt h]

/-- Evaluation for C9: `drm_display_setup` of the session of `test_color`, which
requests no overlay format, succeeds and leaves the overlay ring with count 0; on
that session `drm_display_overlay_buffer_cycle` does not return `NULL`, it divides
by zero in `index %= count`. The same happens in `drm_display_primary_buffer_cycle`
on a display whose primary ring is empty. -/
theorem C9_empty_ring_division_by_zero :
    (∃ d calls, drm_display_setup env_setup_ok (some display_probed)
        = .ok { ret := 0, display := some d, calls := calls } ∧
      d.up = true ∧ d.overlay_buffers_count = 0 ∧
      drm_display_overlay_buffer_cycle (some d) = .error Fault.division_by_zero) ∧
    drm_display_primary_buffer_cycle (some display_zero)
      = .error Fault.division_by_zero :=
  ⟨⟨_, _, rfl, rfl, rfl, rfl⟩, rfl⟩

/-! ## Modeset clause of configure (C10) -/

/-- The kernel calls of a configure whose request could be allocated. -/
theorem configure_calls (env : CommitEnv) (d : drm_display)
    (ps : drm_display_plane_setup) (b : BufferArg) (ha : env.atomic_alloc = true) :
    (drm_display_configure env (some d) (some ps) (some b)).calls
      = if d.output.mode_set = true then
          [KCall.atomic_commit 0 (plane_clause d.output ps b.record)]
        else
          [KCall.create_property_blob d.output.mode,
           KCall.atomic_commit DRM_MODE_ATOMIC_ALLOW_MODESET
             ([⟨d.output.connector_id, d.output.connector_properties.crtc_id,
                 d.output.crtc_id⟩,
               ⟨d.output.crtc_id, d.output.crtc_properties.active, 1⟩,
               ⟨d.output.crtc_id, d.output.crtc_properties.mode_id,
                 env.create_blob.getD d.output.mode_blob_id⟩]
              ++ plane_clause d.output ps b.record)] := by
  simp only [drm_display_configure, ha]
  cases hm : d.output.mode_set <;> cases hb : env.create_blob <;>
    cases hc : env.atomic_commit <;>
    simp [modeset_clause, plane_clause, DRM_MODE_ATOMIC_ALLOW_MODESET]

/-- A configure without allocated request issues no kernel call. -/
theorem configure_calls_no_alloc (env : CommitEnv) (d : drm_display)
    (ps : drm_display_plane_setup) (b : BufferArg) (ha : env.atomic_alloc = false) :
    (drm_display_configure env (some d) (some ps) (some b)).calls = [] := by
  simp [drm_display_configure, ha]

/-- Every commit operation leaves a display, and keeps `mode_set` once it is true. -/
theorem run_op_mode_set (d : drm_display) (op : CommitOp)
    (h : d.output.mode_set = true) :
    ((run_op d op).display.getD d).output.mode_set = true := by
  cases op with
  | configure env ps b =>
    simp only [run_op, drm_display_configure]
    cases env.atomic_alloc <;> cases env.atomic_commit <;> simp [h]
  | page_flip env ps b =>
    simp only [run_op, drm_display_page_flip]
    cases hcf : ps.configured <;> cases env.atomic_alloc <;> cases env.atomic_commit <;>
      simp [h]
  | detach env ps =>
    simp only [run_op, drm_display_detach]
    cases hcf : ps.configured <;> cases env.atomic_alloc <;> cases env.atomic_commit <;>
      simp [h]

/-- A series of commit operations keeps `mode_set` once it is true. -/
theorem run_ops_mode_set (ops : List CommitOp) :
    ∀ d : drm_display, d.output.mode_set = true →
      (run_ops d ops).output.mode_set = true := by
  induction ops with
  | nil => intro d h; exact h
  | cons op ops ih => intro d h; exact ih _ (run_op_mode_set d op h)

/-- C10: the atomic request that `drm_display_configure` submits starts with the
modeset clause (connector `CRTC_ID` = `crtc_id`, CRTC `ACTIVE` = 1, CRTC `MODE_ID` =
`mode_blob_id`, which is the id of the blob just uploaded) and is submitted with the
`ALLOW_MODESET` flag if and only if `mode_set` is false on entry; otherwise the flags
are 0 and the request is the ten plane properties alone, all on the plane object.
A request is submitted whenever it could be allocated. After an accepted configure
`mode_set` is true and stays true through every later commit operation, so every
later configure on that output submits no modeset clause. -/
theorem C10_configure_modeset_clause (env : CommitEnv) (d : drm_display)
    (ps : drm_display_plane_setup) (b : BufferArg) :
    (env.atomic_alloc = true → ∃ flags request, KCall.atomic_commit flags request ∈
      (drm_display_configure env (some d) (some ps) (some b)).calls) ∧
    (∀ flags request, KCall.atomic_commit flags request ∈
        (drm_display_configure env (some d) (some ps) (some b)).calls →
      (flags = DRM_MODE_ATOMIC_ALLOW_MODESET ↔ d.output.mode_set = false) ∧
      (d.output.mode_set = false →
        KCall.create_property_blob d.output.mode ∈
          (drm_display_configure env (some d) (some ps) (some b)).calls ∧
        (∀ blob_id, env.create_blob = some blob_id →
          ∃ d1, (drm_display_configure env (some d) (some ps) (some b)).display = some d1 ∧
            d1.output.mode_blob_id = blob_id) ∧
        request =
          [⟨d.output.connector_id, d.output.connector_properties.crtc_id, d.output.crtc_id⟩,
           ⟨d.output.crtc_id, d.output.crtc_properties.active, 1⟩,
           ⟨d.output.crtc_id, d.output.crtc_properties.mode_id,
             env.create_blob.getD d.output.mode_blob_id⟩]
          ++ plane_clause d.output ps b.record) ∧
      (d.output.mode_set = true →
        flags = 0 ∧ request = plane_clause d.output ps b.record ∧
        request.length = 10 ∧ ∀ p ∈ request, p.object_id = ps.plane.id)) ∧
    (env.atomic_alloc = true → env.atomic_commit = none →
      ∃ d1, (drm_display_configure env (some d) (some ps) (some b)).display = some d1 ∧
        d1.output.mode_set = true ∧
        ∀ (ops : List CommitOp) (env2 : CommitEnv) (ps2 : drm_display_plane_setup)
          (b2 : BufferArg) (flags request),
          KCall.atomic_commit flags request ∈
            (drm_display_configure env2 (some (run_ops d1 ops)) (some ps2) (some b2)).calls →
          flags = 0 ∧ request = plane_clause (run_ops d1 ops).output ps2 b2.record) := by
  have key : ∀ (env : CommitEnv) (d : drm_display) (ps : drm_display_plane_setup)
      (b : BufferArg) (flags : Nat) (request : List AtomicProperty),
      d.output.mode_set = true →
      KCall.atomic_commit flags request ∈
        (drm_display_configure env (some d) (some ps) (some b)).calls →
      flags = 0 ∧ request = plane_clause d.output ps b.record := by
    intro env d ps b flags request hm hmem
    cases ha : env.atomic_alloc with
    | false => simp [configure_calls_no_alloc env d ps b ha] at hmem
    | true =>
      rw [configure_calls env d ps b ha] at hmem
      simpa [hm] using hmem
  refine ⟨?_, ?_, ?_⟩
  · intro ha
    rw [configure_calls env d ps b ha]
    split_ifs <;> simp
  · intro flags request hmem
    cases ha : env.atomic_alloc with
    | false => simp [configure_calls_no_alloc env d ps b ha] at hmem
    | true =>
      have hcalls := configure_calls env d ps b ha
      cases hm : d.output.mode_set with
      | true =>
        obtain ⟨hf, hr⟩ := key env d ps b flags request hm hmem
        refine ⟨?_, fun h => absurd h (by simp), fun _ => ⟨hf, hr, ?_, ?_⟩⟩
        · simp [hf, DRM_MODE_ATOMIC_ALLOW_MODESET]
        · simp [hr, plane_clause]
        · intro p hp
          rw [hr] at hp
          simp only [plane_clause, List.mem_cons, List.mem_singleton, List.not_mem_nil,
            or_false] at hp
          rcases hp with h | h | h | h | h | h | h | h | h | h <;> rw [h]
      | false =>
        rw [hcalls] at hmem
        simp only [hm, Bool.false_eq_true, if_false, List.mem_cons, List.mem_singleton,
          List.not_mem_nil, or_false, KCall.atomic_commit.injEq, false_or, reduceCtorEq] at hmem
        obtain ⟨hf, hr⟩ := hmem
        refine ⟨by simp [hf], fun _ => ⟨?_, ?_, hr⟩, fun h => absurd h (by simp)⟩
        · rw [hcalls]
          simp [hm]
        · intro blob_id hb
          simp only [drm_display_configure, ha, hm, hb]
          cases env.atomic_commit <;> simp
  · intro ha hc
    obtain ⟨d1, hd1, hms, -⟩ := configure_accepted env d ps b ha hc
    refine ⟨d1, hd1, hms, ?_⟩
    intro ops env2 ps2 b2 flags request hmem
    exact key env2 (run_ops d1 ops) ps2 b2 flags request (run_ops_mode_set ops d1 hms) hmem

/-- Witness of C10: the first configure of `test_color` on the zero-initialised
display submits a request with the `ALLOW_MODESET` flag, and a configure on the
display it leaves submits the plane properties alone with flags 0. -/
theorem C10_configure_modeset_clause_witness :
    (∃ flags request, KCall.atomic_commit flags request ∈
      (drm_display_configure env_accept (some display_zero) (some plane_setup_zero)
        (some buffer_A)).calls) ∧
    (∃ d1, (drm_display_configure env_accept (some display_zero) (some plane_setup_zero)
        (some buffer_A)).display = some d1 ∧
      (drm_display_configure env_accept (some d1) (some plane_setup_zero)
        (some buffer_B)).calls
        = [KCall.atomic_commit 0 (plane_clause d1.output plane_setup_zero buffer_B.record)]) :=
  ⟨(C10_configure_modeset_clause env_accept display_zero plane_setup_zero buffer_A).1 rfl,
   ⟨_, rfl, rfl⟩⟩

/-! ## Plane properties of configure (C11) -/

/-- C11 as stated fails for a buffer dimension that does not fit 16 bits: with
`buffer_width = 65536` the shift `buffer_width << 16` is done on a 32-bit
`unsigned int` and `SRC_W` (property 5 of plane 31) is submitted as 0, not as
65536 * 2^16. -/
theorem C11_counterexample :
    (drm_display_configure env_accept (some display_mode_set)
      (some { plane_setup_sample with buffer_width := 65536 }) (some buffer_A)).calls
      = [KCall.atomic_commit 0
          [⟨31, 3, 41⟩, ⟨31, 4, 40⟩, ⟨31, 5, 0⟩, ⟨31, 6, 131072⟩, ⟨31, 7, 0⟩, ⟨31, 8, 0⟩,
           ⟨31, 9, 640⟩, ⟨31, 10, 480⟩, ⟨31, 11, 16⟩, ⟨31, 12, 8⟩]] ∧
    ¬ ((0 : Nat) = 65536 * 2 ^ 16) := by
  decide

/-- C11, amended: for every plane setup and buffer, the atomic request submitted by
`drm_display_configure` ends with the ten plane properties `FB_ID` = the buffer's
`fb_id`, `CRTC_ID` = the output's `crtc_id`, `SRC_W` = `buffer_width * 2^16` modulo
2^32, `SRC_H` = `buffer_height * 2^16` modulo 2^32, `SRC_X` = 0, `SRC_Y` = 0 and
`CRTC_W`, `CRTC_H`, `CRTC_X`, `CRTC_Y` = `display_width`, `display_height`,
`display_x`, `display_y`; when the buffer dimensions are below 2^16, `SRC_W` and
`SRC_H` are `buffer_width * 2^16` and `buffer_height * 2^16`, the 16.16 fixed point
values whose integer part is the dimension and whose fraction is 0. A request is
submitted whenever it could be allocated. -/
theorem C11_configure_plane_properties (env : CommitEnv) (d : drm_display)
    (ps : drm_display_plane_setup) (b : BufferArg) :
    (env.atomic_alloc = true → ∃ flags request, KCall.atomic_commit flags request ∈
      (drm_display_configure env (some d) (some ps) (some b)).calls) ∧
    (∀ flags request, KCall.atomic_commit flags request ∈
        (drm_display_configure env (some d) (some ps) (some b)).calls →
      (∃ pre, request = pre ++
        [⟨ps.plane.id, ps.plane.properties.fb_id, b.record.fb_id⟩,
         ⟨ps.plane.id, ps.plane.properties.crtc_id, d.output.crtc_id⟩,
         ⟨ps.plane.id, ps.plane.properties.src_w, (ps.buffer_width * 2 ^ 16) % UINT_MOD⟩,
         ⟨ps.plane.id, ps.plane.properties.src_h, (ps.buffer_height * 2 ^ 16) % UINT_MOD⟩,
         ⟨ps.plane.id, ps.plane.properties.src_x, 0⟩,
         ⟨ps.plane.id, ps.plane.properties.src_y, 0⟩,
         ⟨ps.plane.id, ps.plane.properties.crtc_w, ps.display_width⟩,
         ⟨ps.plane.id, ps.plane.properties.crtc_h, ps.display_height⟩,
         ⟨ps.plane.id, ps.plane.properties.crtc_x, ps.display_x⟩,
         ⟨ps.plane.id, ps.plane.properties.crtc_y, ps.display_y⟩]) ∧
      (ps.buffer_width < 2 ^ 16 → ps.buffer_height < 2 ^ 16 →
        ∃ pre, request = pre ++
          [⟨ps.plane.id, ps.plane.properties.fb_id, b.record.fb_id⟩,
           ⟨ps.plane.id, ps.plane.properties.crtc_id, d.output.crtc_id⟩,
           ⟨ps.plane.id, ps.plane.properties.src_w, ps.buffer_width * 2 ^ 16⟩,
           ⟨ps.plane.id, ps.plane.properties.src_h, ps.buffer_height * 2 ^ 16⟩,
           ⟨ps.plane.id, ps.plane.properties.src_x, 0⟩,
           ⟨ps.plane.id, ps.plane.properties.src_y, 0⟩,
           ⟨ps.plane.id, ps.plane.properties.crtc_w, ps.display_width⟩,
           ⟨ps.plane.id, ps.plane.properties.crtc_h, ps.display_height⟩,
           ⟨ps.plane.id, ps.plane.properties.crtc_x, ps.display_x⟩,
           ⟨ps.plane.id, ps.plane.properties.crtc_y, ps.display_y⟩] ∧
          ps.buffer_width * 2 ^ 16 / 2 ^ 16 = ps.buffer_width ∧
          ps.buffer_width * 2 ^ 16 % 2 ^ 16 = 0 ∧
          ps.buffer_height * 2 ^ 16 / 2 ^ 16 = ps.buffer_height ∧
          ps.buffer_height * 2 ^ 16 % 2 ^ 16 = 0)) := by
  have hclause : plane_clause d.output ps b.record =
      [⟨ps.plane.id, ps.plane.properties.fb_id, b.record.fb_id⟩,
       ⟨ps.plane.id, ps.plane.properties.crtc_id, d.output.crtc_id⟩,
       ⟨ps.plane.id, ps.plane.properties.src_w, (ps.buffer_width * 2 ^ 16) % UINT_MOD⟩,
       ⟨ps.plane.id, ps.plane.properties.src_h, (ps.buffer_height * 2 ^ 16) % UINT_MOD⟩,
       ⟨ps.plane.id, ps.plane.properties.src_x, 0⟩,
       ⟨ps.plane.id, ps.plane.properties.src_y, 0⟩,
       ⟨ps.plane.id, ps.plane.properties.crtc_w, ps.display_width⟩,
       ⟨ps.plane.id, ps.plane.properties.crtc_h, ps.display_height⟩,
       ⟨ps.plane.id, ps.plane.properties.crtc_x, ps.display_x⟩,
       ⟨ps.plane.id, ps.plane.properties.crtc_y, ps.display_y⟩] := by
    simp [plane_clause, Nat.shiftLeft_eq]
  have hpre : ∀ flags request, KCall.atomic_commit flags request ∈
      (drm_display_configure env (some d) (some ps) (some b)).calls →
      ∃ pre, request = pre ++ plane_clause d.output ps b.record := by
    intro flags request hmem
    cases ha : env.atomic_alloc with
    | false => simp [configure_calls_no_alloc env d ps b ha] at hmem
    | true =>
      rw [configure_calls env d ps b ha] at hmem
      split_ifs at hmem with hm
      · simp only [List.mem_singleton, KCall.atomic_commit.injEq] at hmem
        exact ⟨[], by simp [hmem.2]⟩
      · simp only [List.mem_cons, List.mem_singleton, List.not_mem_nil, or_false,
          KCall.atomic_commit.injEq, false_or, reduceCtorEq] at hmem
        exact ⟨_, hmem.2⟩
  refine ⟨?_, ?_⟩
  · intro ha
    rw [configure_calls env d ps b ha]
    split_ifs <;> simp
  · intro flags request hmem
    obtain ⟨pre, hreq⟩ := hpre flags request hmem
    rw [hclause] at hreq
    refine ⟨⟨pre, hreq⟩, ?_⟩
    intro hw hh
    have hw32 : ps.buffer_width * 2 ^ 16 < UINT_MOD := by
      unfold UINT_MOD
      omega
    have hh32 : ps.buffer_height * 2 ^ 16 < UINT_MOD := by
      unfold UINT_MOD
      omega
    rw [Nat.mod_eq_of_lt hw32, Nat.mod_eq_of_lt hh32] at hreq
    exact ⟨pre, hreq, Nat.mul_div_cancel _ (by norm_num), Nat.mul_mod_left _ _,
      Nat.mul_div_cancel _ (by norm_num), Nat.mul_mod_left _ _⟩

/-- Witness of C11: the configure of the sample plane setup (4 x 2 buffer) on an
output whose mode is set submits `SRC_W` = 4 * 2^16 and `SRC_H` = 2 * 2^16. -/
theorem C11_configure_plane_properties_witness :
    ∃ pre, [(⟨31, 3, 41⟩ : AtomicProperty), ⟨31, 4, 40⟩, ⟨31, 5, 262144⟩, ⟨31, 6, 131072⟩,
        ⟨31, 7, 0⟩, ⟨31, 8, 0⟩, ⟨31, 9, 640⟩, ⟨31, 10, 480⟩, ⟨31, 11, 16⟩, ⟨31, 12, 8⟩]
      = pre ++ [⟨31, 3, 41⟩, ⟨31, 4, 40⟩, ⟨31, 5, 4 * 2 ^ 16⟩, ⟨31, 6, 2 * 2 ^ 16⟩,
        ⟨31, 7, 0⟩, ⟨31, 8, 0⟩, ⟨31, 9, 640⟩, ⟨31, 10, 480⟩, ⟨31, 11, 16⟩, ⟨31, 12, 8⟩] := by
  obtain ⟨pre, h, -⟩ :=
    ((C11_configure_plane_properties env_accept display_mode_set plane_setup_sample
      buffer_A).2 0
      [⟨31, 3, 41⟩, ⟨31, 4, 40⟩, ⟨31, 5, 262144⟩, ⟨31, 6, 131072⟩, ⟨31, 7, 0⟩, ⟨31, 8, 0⟩,
       ⟨31, 9, 640⟩, ⟨31, 10, 480⟩, ⟨31, 11, 16⟩, ⟨31, 12, 8⟩]
      (by decide)).2 (by decide) (by decide)
  exact ⟨pre, h⟩

/-! ## Dumb buffer requested for the planar formats (C12) -/

/-- The first kernel call of a buffer setup with a supported format is the
dumb-buffer create with the dimensions of the first `switch`. -/
theorem buffer_setup_first_call (env : BufferEnv) (d : drm_display)
    (b : drm_display_buffer) (ps : drm_display_plane_setup) (cw ch bpp : Nat)
    (hq : create_dumb_request { b with width := ps.buffer_width, height := ps.buffer_height,
                                       format := ps.buffer_format } = some (cw, ch, bpp)) :
    ∃ rest, (drm_display_buffer_setup env (some d) (some b) (some ps)).calls
      = KCall.create_dumb cw ch bpp :: rest := by
  simp only [drm_display_buffer_setup, hq]
  cases env.create_dumb with
  | fail errno => exact ⟨[], rfl⟩
  | ok handle pitch size =>
    cases env.map_dumb with
    | none =>
      simp only [buffer_setup_error]
      split_ifs <;> simp
    | some offset =>
      simp only [buffer_setup_error]
      cases env.add_fb2 <;> split_ifs <;> simp

/-- C12 as stated fails for a height H with 3 * H + 7 >= 2^32: for NV12 at
1 x 1431655763 the sum `height * 3 + 7` wraps to 0 in `unsigned int`, the dumb
buffer requested is 0 rows high and not ceil(3 * H / 8) = 536870912 rows, and the
requested byte count 0 is less than W * H * 3 / 2. -/
theorem C12_counterexample :
    (drm_display_buffer_setup (env_buffer_ok 4 0) (some display_zero)
      (some drm_display_buffer.zero)
      (some (plane_setup_for 1 1431655763 DRM_FORMAT_NV12))).calls.head?
      = some (KCall.create_dumb 1 0 32) ∧
    (3 * 1431655763 + 7) / 8 = 536870912 ∧
    4 * 1 * 0 < 1 * 1431655763 * 3 / 2 := by
  decide

/-- C12, amended: for every buffer width W and height H with 3 * H + 7 below 2^32
and format NV12 or YUV420, `drm_display_buffer_setup` requests a dumb buffer W
pixels wide and ceil(3 * H / 8) rows high at 32 bits per pixel; the requested byte
count 4 * W * ceil(3 * H / 8) is never less than the W * H * 3 / 2 bytes of the
4:2:0 frame, equals it when 3 * H is a multiple of 8, and for W > 0 only then. -/
theorem C12_yuv_dumb_request (env : BufferEnv) (d : drm_display)
    (b : drm_display_buffer) (ps : drm_display_plane_setup) (W H : Nat)
    (hW : ps.buffer_width = W) (hH : ps.buffer_height = H)
    (hf : ps.buffer_format = DRM_FORMAT_NV12 ∨ ps.buffer_format = DRM_FORMAT_YUV420)
    (h32 : H * 3 + 7 < UINT_MOD) :
    (∃ rest, (drm_display_buffer_setup env (some d) (some b) (some ps)).calls
      = KCall.create_dumb W ((3 * H + 7) / 8) 32 :: rest) ∧
    (3 * H ≤ 8 * ((3 * H + 7) / 8) ∧ 8 * ((3 * H + 7) / 8) < 3 * H + 8) ∧
    3 * (W * H) ≤ 2 * (4 * W * ((3 * H + 7) / 8)) ∧
    W * H * 3 / 2 ≤ 4 * W * ((3 * H + 7) / 8) ∧
    (8 ∣ 3 * H → 2 * (4 * W * ((3 * H + 7) / 8)) = 3 * (W * H) ∧
      4 * W * ((3 * H + 7) / 8) = W * H * 3 / 2) ∧
    (0 < W → (2 * (4 * W * ((3 * H + 7) / 8)) = 3 * (W * H) ↔ 8 ∣ 3 * H)) := by
  have hq : create_dumb_request { b with width := ps.buffer_width, height := ps.buffer_height,
                                         format := ps.buffer_format }
      = some (W, (3 * H + 7) / 8, 32) := by
    have e : H * 3 + 7 = 3 * H + 7 := by omega
    have hmod : (3 * H + 7) % UINT_MOD = 3 * H + 7 := Nat.mod_eq_of_lt (e ▸ h32)
    unfold create_dumb_request
    rcases hf with h | h <;>
      simp [h, hW, hH, hmod, e, DRM_FORMAT_NV12, DRM_FORMAT_YUV420,
        DRM_FORMAT_XRGB8888, DRM_FORMAT_ARGB8888]
  have hceil : 3 * H ≤ 8 * ((3 * H + 7) / 8) ∧ 8 * ((3 * H + 7) / 8) < 3 * H + 8 := by
    omega
  have hmul : 2 * (4 * W * ((3 * H + 7) / 8)) = W * (8 * ((3 * H + 7) / 8)) := by ring
  have hmul2 : 3 * (W * H) = W * (3 * H) := by ring
  have hge : 3 * (W * H) ≤ 2 * (4 * W * ((3 * H + 7) / 8)) := by
    rw [hmul, hmul2]
    exact Nat.mul_le_mul_left W hceil.1
  refine ⟨buffer_setup_first_call env d b ps _ _ _ hq, hceil, hge, ?_, ?_, ?_⟩
  · have e3 : W * H * 3 = 3 * (W * H) := by ring
    rw [e3]
    omega
  · intro hdvd
    have h8 : 8 * ((3 * H + 7) / 8) = 3 * H := by omega
    have heq : 2 * (4 * W * ((3 * H + 7) / 8)) = 3 * (W * H) := by
      rw [hmul, hmul2, h8]
    have e3 : W * H * 3 = 3 * (W * H) := by ring
    refine ⟨heq, ?_⟩
    rw [e3]
    omega
  · intro hWpos
    constructor
    · intro heq
      rw [hmul, hmul2] at heq
      have h8 : 8 * ((3 * H + 7) / 8) = 3 * H := Nat.eq_of_mul_eq_mul_left hWpos heq
      omega
    · intro hdvd
      have h8 : 8 * ((3 * H + 7) / 8) = 3 * H := by omega
      rw [hmul, hmul2, h8]

/-- Witness of C12: an 8 x 8 NV12 buffer is requested 8 pixels wide and 3 rows
high, 96 bytes, which is 8 * 8 * 3 / 2. -/
theorem C12_yuv_dumb_request_witness :
    (∃ rest, (drm_display_buffer_setup (env_buffer_ok 32 96) (some display_zero)
      (some drm_display_buffer.zero) (some (plane_setup_for 8 8 DRM_FORMAT_NV12))).calls
      = KCall.create_dumb 8 3 32 :: rest) ∧
    4 * 8 * 3 = 8 * 8 * 3 / 2 :=
  have h := C12_yuv_dumb_request (env_buffer_ok 32 96) display_zero
    drm_display_buffer.zero (plane_setup_for 8 8 DRM_FORMAT_NV12) 8 8 rfl rfl
    (Or.inl rfl) (by decide)
  ⟨h.1, (h.2.2.2.2.1 (by decide)).2⟩

/-! ## Planes kept by the probe (C13) -/

/-- Evaluation for C13: on the sample kernel, which enumerates the primary plane 31
and then the overlay plane 32, the probe of a display that requests XRGB8888 for
the primary plane and NV12 for the overlay plane succeeds and keeps plane 31 as
primary plane, but keeps no overlay plane (`overlay_setup.plane` is still all
zero), although plane 32 is compatible with the CRTC, resolves all required
properties, has type OVERLAY and lists NV12. When the same kernel enumerates plane
32 before plane 31, both planes are kept. -/
theorem C13_overlay_after_primary_not_kept :
    (∃ d, drm_display_probe (env_probe_sample [31, 32]) (some display_requesting)
        = { ret := 0, display := some d } ∧
      d.primary_setup.plane.id = 31 ∧
      d.overlay_setup.plane = ⟨0, 0, ⟨0, 0, 0, 0, 0, 0, 0, 0, 0, 0, 0⟩⟩) ∧
    plane_matches (env_probe_sample [31, 32]) 0 DRM_PLANE_TYPE_OVERLAY DRM_FORMAT_NV12 32
      = true ∧
    (∃ d, drm_display_probe (env_probe_sample [32, 31]) (some display_requesting)
        = { ret := 0, display := some d } ∧
      d.primary_setup.plane.id = 31 ∧
      d.overlay_setup.plane = ⟨32, 0, ⟨2, 3, 4, 5, 6, 7, 8, 9, 10, 11, 12⟩⟩) :=
  ⟨⟨_, rfl, rfl, rfl⟩, rfl, ⟨_, rfl, rfl, rfl⟩⟩

/-- The property probe of a plane leaves the plane id as it is. -/
theorem plane_properties_probe_id (env : ProbeEnv) (plane : drm_display_plane) :
    (plane_properties_probe env plane).2.id = plane.id := by
  simp only [plane_properties_probe]
  split <;> rfl

/-- The probed record of a plane carries the id of the plane. -/
theorem probed_plane_id (env : ProbeEnv) (plane_id : Nat) :
    (probed_plane env plane_id).2.id = plane_id :=
  plane_properties_probe_id env _

/-- A plane that can serve as primary plane is kept when none is held yet. -/
theorem probe_plane_keeps_primary (env : ProbeEnv) (crtc_index plane_id : Nat)
    (plane : drmModePlane) (d : drm_display)
    (hg : env.get_plane plane_id = some plane)
    (hm : plane_matches env crtc_index DRM_PLANE_TYPE_PRIMARY
      d.primary_setup.buffer_format plane_id = true)
    (hd : d.primary_setup.plane.id = 0) :
    probe_plane env crtc_index plane_id plane d
      = { d with primary_setup :=
            { d.primary_setup with plane := (probed_plane env plane_id).2 } } := by
  simp only [plane_matches, hg, Bool.and_eq_true, decide_eq_true_eq] at hm
  obtain ⟨⟨⟨h1, h2⟩, h3⟩, h4⟩ := hm
  simp [probe_plane, h1, h2, h3, h4, hd]

/-- A plane that can serve as overlay plane is kept when none is held yet. -/
theorem probe_plane_keeps_overlay (env : ProbeEnv) (crtc_index plane_id : Nat)
    (plane : drmModePlane) (d : drm_display)
    (hg : env.get_plane plane_id = some plane)
    (hm : plane_matches env crtc_index DRM_PLANE_TYPE_OVERLAY
      d.overlay_setup.buffer_format plane_id = true)
    (hd : d.overlay_setup.plane.id = 0) :
    probe_plane env crtc_index plane_id plane d
      = { d with overlay_setup :=
            { d.overlay_setup with plane := (probed_plane env plane_id).2 } } := by
  simp only [plane_matches, hg, Bool.and_eq_true, decide_eq_true_eq] at hm
  obtain ⟨⟨⟨h1, h2⟩, h3⟩, h4⟩ := hm
  simp [probe_plane, h1, h2, h3, h4, hd, DRM_PLANE_TYPE_OVERLAY, DRM_PLANE_TYPE_PRIMARY]

/-- A plane that cannot serve as primary plane, and that cannot serve as overlay
plane or comes when an overlay plane is held, leaves the display as it is. -/
theorem probe_plane_skips (env : ProbeEnv) (crtc_index plane_id : Nat)
    (plane : drmModePlane) (d : drm_display)
    (hg : env.get_plane plane_id = some plane)
    (hp : plane_matches env crtc_index DRM_PLANE_TYPE_PRIMARY
      d.primary_setup.buffer_format plane_id = false)
    (ho : plane_matches env crtc_index DRM_PLANE_TYPE_OVERLAY
      d.overlay_setup.buffer_format plane_id = false ∨ d.overlay_setup.plane.id ≠ 0) :
    probe_plane env crtc_index plane_id plane d = d := by
  simp only [plane_matches, hg, Bool.and_eq_false_iff, decide_eq_false_iff_not,
    Decidable.not_not] at hp ho
  unfold probe_plane
  by_cases h1 : plane.possible_crtcs &&& ((1 <<< crtc_index) % UINT_MOD) = 0
  · simp [h1]
  · by_cases h2 : (probed_plane env plane_id).1 = 0
    · simp only [h1, h2, if_false, ne_eq, not_true_eq_false]
      split_ifs with a1 a2 a3 a4 a5 a6 <;> try rfl
      · rcases hp with ((hp | hp) | hp) | hp
        · exact absurd hp h1
        · exact absurd h2 hp
        · exact absurd a1 hp
        · exact absurd a3 hp
      · rcases ho with (((ho | ho) | ho) | ho) | ho
        · exact absurd ho h1
        · exact absurd h2 ho
        · exact absurd a4 ho
        · exact absurd a6 ho
        · exact absurd a5 ho
    · simp [h1, h2]

/-- A plane that can serve in a role is one that libdrm returns. -/
theorem plane_matches_get_plane (env : ProbeEnv) (crtc_index type format plane_id : Nat)
    (hm : plane_matches env crtc_index type format plane_id = true) :
    ∃ plane, env.get_plane plane_id = some plane := by
  cases hg : env.get_plane plane_id with
  | none => simp [plane_matches, hg] at hm
  | some plane => exact ⟨plane, rfl⟩

/-- The overlay plane held does not change at a plane that cannot serve as overlay
plane, or that comes when an overlay plane is held. -/
theorem overlay_kept_cons_skip (env : ProbeEnv) (crtc_index q : Nat) (pre : List Nat)
    (d : drm_display)
    (ho : plane_matches env crtc_index DRM_PLANE_TYPE_OVERLAY
      d.overlay_setup.buffer_format q = false ∨ d.overlay_setup.plane.id ≠ 0) :
    overlay_kept env crtc_index (q :: pre) d = overlay_kept env crtc_index pre d := by
  unfold overlay_kept
  by_cases h : d.overlay_setup.plane.id = 0
  · rcases ho with ho | ho
    · simp [h, List.find?, ho]
    · exact absurd h ho
  · simp [h]

/-- The plane loop on an enumeration `pre ++ p :: post` of planes with non-zero
ids, entered with no primary plane held, where `p` is the first plane that can
serve as primary plane: the loop leaves through `break` at `p`, keeps the probed
record of `p` as primary plane, holds as overlay plane what the planes before `p`
gave, and does not look at the planes after `p`. -/
theorem probe_planes_result (env : ProbeEnv) (crtc_index p : Nat) (post : List Nat)
    (hp0 : p ≠ 0) (pre : List Nat) :
    ∀ d : drm_display, d.primary_setup.plane.id = 0 → (∀ q ∈ pre, q ≠ 0) →
      (∀ q ∈ pre, plane_matches env crtc_index DRM_PLANE_TYPE_PRIMARY
        d.primary_setup.buffer_format q = false) →
      plane_matches env crtc_index DRM_PLANE_TYPE_PRIMARY
        d.primary_setup.buffer_format p = true →
      probe_planes env crtc_index (pre ++ p :: post) d
        = (true, { d with
            primary_setup := { d.primary_setup with plane := (probed_plane env p).2 },
            overlay_setup := { d.overlay_setup with
              plane := overlay_kept env crtc_index pre d } }) := by
  induction pre with
  | nil =>
    intro d hd _ _ hp
    obtain ⟨plane, hg⟩ := plane_matches_get_plane env _ _ _ _ hp
    have hk : overlay_kept env crtc_index [] d = d.overlay_setup.plane := by
      simp [overlay_kept]
    simp only [List.nil_append, probe_planes, hg, hk,
      probe_plane_keeps_primary env crtc_index p plane d hg hp hd, probed_plane_id]
    simp [hp0]
  | cons q pre ih =>
    intro d hd hids hpre hp
    have hq0 : q ≠ 0 := hids q (List.mem_cons_self q pre)
    have hids2 : ∀ x ∈ pre, x ≠ 0 := fun x hx => hids x (List.mem_cons_of_mem q hx)
    have hqp := hpre q (List.mem_cons_self q pre)
    have hpre2 : ∀ x ∈ pre, plane_matches env crtc_index DRM_PLANE_TYPE_PRIMARY
        d.primary_setup.buffer_format x = false :=
      fun x hx => hpre x (List.mem_cons_of_mem q hx)
    cases hg : env.get_plane q with
    | none =>
      have hsk : overlay_kept env crtc_index (q :: pre) d
          = overlay_kept env crtc_index pre d :=
        overlay_kept_cons_skip env crtc_index q pre d
          (Or.inl (by simp [plane_matches, hg]))
      simp only [List.cons_append, probe_planes, hg, hsk]
      exact ih d hd hids2 hpre2 hp
    | some plane =>
      by_cases hov : plane_matches env crtc_index DRM_PLANE_TYPE_OVERLAY
          d.overlay_setup.buffer_format q = true ∧ d.overlay_setup.plane.id = 0
      · have hstep := probe_plane_keeps_overlay env crtc_index q plane d hg hov.1 hov.2
        have hrec := ih { d with overlay_setup :=
            { d.overlay_setup with plane := (probed_plane env q).2 } } hd hids2 hpre2 hp
        have hk1 : overlay_kept env crtc_index pre { d with overlay_setup :=
            { d.overlay_setup with plane := (probed_plane env q).2 } }
            = (probed_plane env q).2 := by
          simp [overlay_kept, probed_plane_id, hq0]
        have hk2 : overlay_kept env crtc_index (q :: pre) d = (probed_plane env q).2 := by
          simp [overlay_kept, hov.2, List.find?, hov.1]
        simp only [List.cons_append, probe_planes, hg, hstep, hd, ne_eq, not_true_eq_false,
          if_false, hk2]
        refine hrec.trans ?_
        rw [hk1]
      · have ho : plane_matches env crtc_index DRM_PLANE_TYPE_OVERLAY
            d.overlay_setup.buffer_format q = false ∨ d.overlay_setup.plane.id ≠ 0 := by
          by_cases h0 : d.overlay_setup.plane.id = 0
          · left
            by_contra hc
            exact hov ⟨by simpa using hc, h0⟩
          · exact Or.inr h0
        have hstep := probe_plane_skips env crtc_index q plane d hg hqp ho
        simp only [List.cons_append, probe_planes, hg, hstep, hd, ne_eq, not_true_eq_false,
          if_false, overlay_kept_cons_skip env crtc_index q pre d ho]
        exact ih d hd hids2 hpre2 hp

/-- A plane that cannot serve as primary plane leaves the primary plane setup as it
is. -/
theorem probe_plane_primary_setup (env : ProbeEnv) (crtc_index plane_id : Nat)
    (plane : drmModePlane) (d : drm_display)
    (hg : env.get_plane plane_id = some plane)
    (hp : plane_matches env crtc_index DRM_PLANE_TYPE_PRIMARY
      d.primary_setup.buffer_format plane_id = false) :
    (probe_plane env crtc_index plane_id plane d).primary_setup = d.primary_setup := by
  by_cases hov : plane_matches env crtc_index DRM_PLANE_TYPE_OVERLAY
      d.overlay_setup.buffer_format plane_id = true ∧ d.overlay_setup.plane.id = 0
  · rw [probe_plane_keeps_overlay env crtc_index plane_id plane d hg hov.1 hov.2]
  · have ho : plane_matches env crtc_index DRM_PLANE_TYPE_OVERLAY
        d.overlay_setup.buffer_format plane_id = false ∨ d.overlay_setup.plane.id ≠ 0 := by
      by_cases h0 : d.overlay_setup.plane.id = 0
      · left
        by_contra hc
        exact hov ⟨by simpa using hc, h0⟩
      · exact Or.inr h0
    rw [probe_plane_skips env crtc_index plane_id plane d hg hp ho]

/-- When no plane of the enumeration can serve as primary plane, the plane loop runs
to its end without `break`. -/
theorem probe_planes_not_found (env : ProbeEnv) (crtc_index : Nat) (planes : List Nat) :
    ∀ d : drm_display, d.primary_setup.plane.id = 0 →
      (∀ q ∈ planes, plane_matches env crtc_index DRM_PLANE_TYPE_PRIMARY
        d.primary_setup.buffer_format q = false) →
      (probe_planes env crtc_index planes d).1 = false := by
  induction planes with
  | nil => intro d _ _; rfl
  | cons q planes ih =>
    intro d hd hall
    have hq := hall q (List.mem_cons_self q planes)
    have hall2 : ∀ x ∈ planes, plane_matches env crtc_index DRM_PLANE_TYPE_PRIMARY
        d.primary_setup.buffer_format x = false :=
      fun x hx => hall x (List.mem_cons_of_mem q hx)
    cases hg : env.get_plane q with
    | none =>
      simp only [probe_planes, hg]
      exact ih d hd hall2
    | some plane =>
      have hps := probe_plane_primary_setup env crtc_index q plane d hg hq
      simp only [probe_planes, hg, hps, hd, ne_eq, not_true_eq_false, if_false]
      exact ih _ (by rw [hps]; exact hd) (by rw [hps]; exact hall2)

/-- The connector loop leaves the two plane setups as they are. -/
theorem probe_connectors_setups (env : ProbeEnv) (connectors : List Nat) :
    ∀ s : ConnectorScan,
      (probe_connectors env connectors s).display.primary_setup = s.display.primary_setup ∧
      (probe_connectors env connectors s).display.overlay_setup = s.display.overlay_setup := by
  induction connectors with
  | nil => intro s; exact ⟨rfl, rfl⟩
  | cons c connectors ih =>
    intro s
    have hone : ∀ connector : drmModeConnector,
        (probe_connector connector s).display.primary_setup = s.display.primary_setup ∧
        (probe_connector connector s).display.overlay_setup = s.display.overlay_setup := by
      intro connector
      simp only [probe_connector]
      split_ifs
      all_goals first
        | exact ⟨rfl, rfl⟩
        | (split <;> exact ⟨rfl, rfl⟩)
    cases hg : env.get_connector c with
    | none =>
      simp only [probe_connectors, hg]
      exact ih s
    | some connector =>
      simp only [probe_connectors, hg]
      split_ifs
      · exact hone connector
      · exact ⟨((ih _).1).trans (hone connector).1, ((ih _).2).trans (hone connector).2⟩

/-- The connector property probe leaves the two plane setups as they are. -/
theorem connector_properties_probe_setups (env : ProbeEnv) (d : drm_display) :
    (connector_properties_probe env d).2.primary_setup = d.primary_setup ∧
    (connector_properties_probe env d).2.overlay_setup = d.overlay_setup := by
  simp only [connector_properties_probe]
  split <;> exact ⟨rfl, rfl⟩

/-- The CRTC property probe leaves the two plane setups as they are. -/
theorem crtc_properties_probe_setups (env : ProbeEnv) (d : drm_display) :
    (crtc_properties_probe env d).2.primary_setup = d.primary_setup ∧
    (crtc_properties_probe env d).2.overlay_setup = d.overlay_setup := by
  simp only [crtc_properties_probe]
  split <;> exact ⟨rfl, rfl⟩

/-- One plane of the plane loop leaves the output as it is. -/
theorem probe_plane_output (env : ProbeEnv) (crtc_index plane_id : Nat)
    (plane : drmModePlane) (d : drm_display) :
    (probe_plane env crtc_index plane_id plane d).output = d.output := by
  simp only [probe_plane]
  split_ifs <;> rfl

/-- The plane loop leaves the output as it is. -/
theorem probe_planes_output (env : ProbeEnv) (crtc_index : Nat) (planes : List Nat) :
    ∀ d : drm_display, (probe_planes env crtc_index planes d).2.output = d.output := by
  induction planes with
  | nil => intro d; rfl
  | cons q planes ih =>
    intro d
    cases hg : env.get_plane q with
    | none =>
      simp only [probe_planes, hg]
      exact ih d
    | some plane =>
      simp only [probe_planes, hg]
      split_ifs
      · exact probe_plane_output env crtc_index q plane d
      · exact (ih _).trans (probe_plane_output env crtc_index q plane d)

/-- The defaulting of the buffer size leaves the output, the plane of the primary
setup and the overlay setup as they are. -/
theorem default_buffer_size_keeps (d : drm_display) :
    (default_buffer_size d).output = d.output ∧
    (default_buffer_size d).primary_setup.plane = d.primary_setup.plane ∧
    (default_buffer_size d).overlay_setup = d.overlay_setup := by
  unfold default_buffer_size
  split_ifs <;> exact ⟨rfl, rfl, rfl⟩

/-- The CRTC property probe leaves the CRTC id as it is. -/
theorem crtc_properties_probe_crtc_id (env : ProbeEnv) (d : drm_display) :
    (crtc_properties_probe env d).2.output.crtc_id = d.output.crtc_id := by
  simp only [crtc_properties_probe]
  split <;> rfl

/-- A successful plane phase: the loop left through `break`. -/
theorem probe_plane_resources_success (env : ProbeEnv) (crtc_index : Nat)
    (d d1 : drm_display)
    (h : probe_plane_resources env crtc_index d = { ret := 0, display := some d1 }) :
    ∃ planes, env.get_plane_resources = some planes ∧
      (probe_planes env crtc_index planes d).1 = true ∧
      d1 = default_buffer_size (probe_planes env crtc_index planes d).2 := by
  unfold probe_plane_resources at h
  split at h
  · simp at h
  · rename_i planes hpl
    simp only at h
    split_ifs at h with hf
    · simp at h
    · simp only [ProbeResult.mk.injEq, Option.some.injEq, true_and] at h
      exact ⟨planes, hpl, by simpa using hf, h.symm⟩

/-- A successful CRTC phase: the plane phase was run for the index of the CRTC id,
on a display with the same plane setups and the same CRTC id. -/
theorem probe_crtc_success (env : ProbeEnv) (resources : drmModeRes)
    (mode_best : drmModeModeInfo) (d d1 : drm_display)
    (h : probe_crtc env resources mode_best d = { ret := 0, display := some d1 }) :
    ∃ crtc_index dmid,
      crtc_index_of d.output.crtc_id resources.crtcs 0 = some crtc_index ∧
      dmid.output.crtc_id = d.output.crtc_id ∧
      dmid.primary_setup = d.primary_setup ∧ dmid.overlay_setup = d.overlay_setup ∧
      probe_plane_resources env crtc_index dmid = { ret := 0, display := some d1 } := by
  unfold probe_crtc at h
  split at h
  · simp at h
  · rename_i crtc_index hci
    split at h
    · simp at h
    · rename_i crtc hcrtc
      simp only at h
      split_ifs at h with hv hr
      all_goals first
        | (refine ⟨crtc_index, _, hci, ?_, ?_, ?_, h⟩
           · exact crtc_properties_probe_crtc_id env _
           · exact (crtc_properties_probe_setups env _).1
           · exact (crtc_properties_probe_setups env _).2)
        | simp at h

/-- A successful encoder phase: the CRTC phase was run on a display with the same
plane setups. -/
theorem probe_encoder_success (env : ProbeEnv) (resources : drmModeRes)
    (encoder_id : Nat) (mode_best : drmModeModeInfo) (d d1 : drm_display)
    (h : probe_encoder env resources encoder_id mode_best d
      = { ret := 0, display := some d1 }) :
    ∃ dcrtc, dcrtc.primary_setup = d.primary_setup ∧ dcrtc.overlay_setup = d.overlay_setup ∧
      probe_crtc env resources mode_best dcrtc = { ret := 0, display := some d1 } := by
  unfold probe_encoder at h
  split at h
  · simp at h
  · rename_i encoder henc
    simp only at h
    split_ifs at h
    all_goals first
      | (refine ⟨_, ?_, ?_, h⟩ <;> first | rfl | (split <;> rfl))
      | simp at h

/-- A successful probe, when a failed capability call leaves a non-zero `errno`:
the encoder phase was run on a display with the plane setups of the entry. -/
theorem probe_success_encoder (env : ProbeEnv) (d d1 : drm_display)
    (ha : ∀ e, env.set_cap_atomic = some e → e ≠ 0)
    (hu : ∀ e, env.set_cap_universal_planes = some e → e ≠ 0)
    (h : drm_display_probe env (some d) = { ret := 0, display := some d1 }) :
    ∃ resources encoder_id mode_best denc, env.get_resources = some resources ∧
      denc.primary_setup = d.primary_setup ∧ denc.overlay_setup = d.overlay_setup ∧
      probe_encoder env resources encoder_id mode_best denc
        = { ret := 0, display := some d1 } := by
  unfold drm_display_probe at h
  simp only at h
  split at h
  · rename_i e he
    simp only [ProbeResult.mk.injEq] at h
    exact absurd (by omega) (ha e he)
  · split at h
    · rename_i e he
      simp only [ProbeResult.mk.injEq] at h
      exact absurd (by omega) (hu e he)
    · split at h
      · simp [ENODEV] at h
      · rename_i resources hres
        split_ifs at h
        all_goals first
          | (refine ⟨resources, _, _, _, hres, ?_, ?_, h⟩
             · exact ((connector_properties_probe_setups env _).1).trans
                 (probe_connectors_setups env _ _).1
             · exact ((connector_properties_probe_setups env _).2).trans
                 (probe_connectors_setups env _ _).2)
          | simp at h

/-- What a successful `drm_display_probe` keeps, for a display that holds no
primary plane on entry and a plane enumeration without the id 0: the enumeration
has a first plane `p` that is compatible with the index of the resolved CRTC,
resolves all required properties, has type PRIMARY and lists the requested primary
format, and the primary plane kept is the probed record of `p`. The overlay plane
held on return is what the planes enumerated before `p` gave: the planes after `p`
are not looked at. -/
theorem probe_keeps_first_primary (env : ProbeEnv) (d d1 : drm_display)
    (ha : ∀ e, env.set_cap_atomic = some e → e ≠ 0)
    (hu : ∀ e, env.set_cap_universal_planes = some e → e ≠ 0)
    (hids : ∀ planes, env.get_plane_resources = some planes → ∀ q ∈ planes, q ≠ 0)
    (hd : d.primary_setup.plane.id = 0)
    (h : drm_display_probe env (some d) = { ret := 0, display := some d1 }) :
    ∃ resources planes crtc_index pre p post,
      env.get_resources = some resources ∧ env.get_plane_resources = some planes ∧
      crtc_index_of d1.output.crtc_id resources.crtcs 0 = some crtc_index ∧
      planes = pre ++ p :: post ∧
      (∀ q ∈ pre, plane_matches env crtc_index DRM_PLANE_TYPE_PRIMARY
        d.primary_setup.buffer_format q = false) ∧
      plane_matches env crtc_index DRM_PLANE_TYPE_PRIMARY
        d.primary_setup.buffer_format p = true ∧
      d1.primary_setup.plane = (probed_plane env p).2 ∧
      d1.overlay_setup.plane = overlay_kept env crtc_index pre d := by
  obtain ⟨resources, encoder_id, mode_best, denc, hres, he1, he2, henc⟩ :=
    probe_success_encoder env d d1 ha hu h
  obtain ⟨dcrtc, hc1, hc2, hcrtc⟩ :=
    probe_encoder_success env resources encoder_id mode_best denc d1 henc
  obtain ⟨crtc_index, dmid, hci, hm0, hm1, hm2, hpl⟩ :=
    probe_crtc_success env resources mode_best dcrtc d1 hcrtc
  obtain ⟨planes, hplanes, hfound, hd1⟩ :=
    probe_plane_resources_success env crtc_index dmid d1 hpl
  have hp1 : dmid.primary_setup = d.primary_setup := hm1.trans (hc1.trans he1)
  have ho1 : dmid.overlay_setup = d.overlay_setup := hm2.trans (hc2.trans he2)
  have hdm : dmid.primary_setup.plane.id = 0 := by rw [hp1]; exact hd
  -- the first plane that can serve as primary plane
  cases hfind : planes.find? (fun q => plane_matches env crtc_index DRM_PLANE_TYPE_PRIMARY
      dmid.primary_setup.buffer_format q) with
  | none =>
    rw [List.find?_eq_none] at hfind
    have hnot := probe_planes_not_found env crtc_index planes dmid hdm
      (fun q hq => by simpa using hfind q hq)
    rw [hnot] at hfound
    exact absurd hfound (by simp)
  | some p =>
    rw [List.find?_eq_some] at hfind
    obtain ⟨hp, pre, post, hsplit, hpre⟩ := hfind
    have hpre2 : ∀ q ∈ pre, plane_matches env crtc_index DRM_PLANE_TYPE_PRIMARY
        dmid.primary_setup.buffer_format q = false :=
      fun q hq => by simpa using hpre q hq
    have hids2 := hids planes hplanes
    have hp0 : p ≠ 0 := hids2 p (by rw [hsplit]; simp)
    have hidpre : ∀ q ∈ pre, q ≠ 0 :=
      fun q hq => hids2 q (by rw [hsplit]; exact List.mem_append_left _ hq)
    have hres2 := probe_planes_result env crtc_index p post hp0 pre dmid hdm hidpre hpre2 hp
    rw [← hsplit] at hres2
    have hkeep := default_buffer_size_keeps (probe_planes env crtc_index planes dmid).2
    have hout := probe_planes_output env crtc_index planes dmid
    have hk : overlay_kept env crtc_index pre dmid = overlay_kept env crtc_index pre d := by
      unfold overlay_kept
      rw [ho1]
    refine ⟨resources, planes, crtc_index, pre, p, post, hres, hplanes, ?_, hsplit, ?_, ?_,
      ?_, ?_⟩
    · rw [hd1, hkeep.1, hout, hm0]
      exact hci
    · rw [← hp1]
      exact hpre2
    · rw [← hp1]
      exact hp
    · rw [hd1, hkeep.2.1, hres2]
    · rw [hd1, hkeep.2.2, hres2, ← hk]

/-! ## Mapped pointers of the planes (C14) -/

/-- The mapped pointers after a successful setup of a buffer that is all zero on
entry. For NV12 `data[1]` is `data[0] + offsets[1]`. For YUV420 `data[1]` is
`data[0] + offsets[1]`, but `data[2]` is `data[0] + offsets[1] + offsets[2]`:
it is `offsets[1]`, that is `width * height` modulo 2^32, bytes past
`data[0] + offsets[2]`. -/
theorem buffer_setup_data_pointers (d : drm_display) (ps : drm_display_plane_setup)
    (handle pitch size offset addr fb_id : Nat) (haddr : addr ≠ MAP_FAILED) :
    (ps.buffer_format = DRM_FORMAT_NV12 →
      ∃ b, (drm_display_buffer_setup ⟨CreateDumbReply.ok handle pitch size, some offset,
              addr, some fb_id⟩ (some d) (some drm_display_buffer.zero) (some ps)).ret = 0 ∧
        (drm_display_buffer_setup ⟨CreateDumbReply.ok handle pitch size, some offset,
              addr, some fb_id⟩ (some d) (some drm_display_buffer.zero) (some ps)).buffer
          = some b ∧
        b.data.e0 = addr ∧ b.offsets.e0 = 0 ∧
        b.data.e1 = b.data.e0 + b.offsets.e1) ∧
    (ps.buffer_format = DRM_FORMAT_YUV420 →
      ∃ b, (drm_display_buffer_setup ⟨CreateDumbReply.ok handle pitch size, some offset,
              addr, some fb_id⟩ (some d) (some drm_display_buffer.zero) (some ps)).ret = 0 ∧
        (drm_display_buffer_setup ⟨CreateDumbReply.ok handle pitch size, some offset,
              addr, some fb_id⟩ (some d) (some drm_display_buffer.zero) (some ps)).buffer
          = some b ∧
        b.data.e0 = addr ∧ b.offsets.e0 = 0 ∧
        b.offsets.e1 = (ps.buffer_width * ps.buffer_height) % UINT_MOD ∧
        b.offsets.e2 = (b.offsets.e1 + b.offsets.e1 / 4) % UINT_MOD ∧
        b.data.e1 = b.data.e0 + b.offsets.e1 ∧
        b.data.e2 = b.data.e0 + b.offsets.e1 + b.offsets.e2) := by
  constructor
  · intro hf
    have hne : DRM_FORMAT_NV12 ≠ DRM_FORMAT_XRGB8888 := by decide
    have hne2 : DRM_FORMAT_NV12 ≠ DRM_FORMAT_ARGB8888 := by decide
    simp [drm_display_buffer_setup, create_dumb_request, buffer_planes, hf, haddr,
      hne, hne2, drm_display_buffer.zero, Array4.zero]
  · intro hf
    have hne : DRM_FORMAT_YUV420 ≠ DRM_FORMAT_XRGB8888 := by decide
    have hne2 : DRM_FORMAT_YUV420 ≠ DRM_FORMAT_ARGB8888 := by decide
    have hne3 : DRM_FORMAT_YUV420 ≠ DRM_FORMAT_NV12 := by decide
    simp [drm_display_buffer_setup, create_dumb_request, buffer_planes, hf, haddr,
      hne, hne2, hne3, drm_display_buffer.zero, Array4.zero]

/-- Evaluation for C14: a successful setup of a 4 x 2 YUV420 buffer mapped at 4096
gives `offsets` = (0, 8, 10) and `data` = (4096, 4104, 4114): `data[2]` is
`data[1] + offsets[2]`, 8 bytes past `data[0] + offsets[2]` = 4106, the byte that
the framebuffer offset of plane 2 designates. -/
theorem C14_yuv420_third_plane_pointer :
    (drm_display_buffer_setup (env_buffer_ok 16 16) (some display_zero)
      (some drm_display_buffer.zero)
      (some (plane_setup_for 4 2 DRM_FORMAT_YUV420))).ret = 0 ∧
    (drm_display_buffer_setup (env_buffer_ok 16 16) (some display_zero)
      (some drm_display_buffer.zero)
      (some (plane_setup_for 4 2 DRM_FORMAT_YUV420))).buffer.map (fun b => b.offsets)
      = some ⟨0, 8, 10, 0⟩ ∧
    (drm_display_buffer_setup (env_buffer_ok 16 16) (some display_zero)
      (some drm_display_buffer.zero)
      (some (plane_setup_for 4 2 DRM_FORMAT_YUV420))).buffer.map (fun b => b.data)
      = some ⟨4096, 4104, 4114, 0⟩ ∧
    ¬ ((4114 : Nat) = 4096 + 10) ∧
    ¬ ((4114 : Nat) = 4096 + 4 * 2 + (4 * 2) / 4) := by
  decide

end DrmDisplay
